import Mathlib

/-!
# StreamRelay OBS plugin: relay start, config rendering and process supervision

A shallow embedding of `src/obs-plugin/stream-relay-plugin.cpp` and of the
constants of `src/obs-plugin/plugin-macros.h`.

* The dialog object (`StreamRelayDialog`) becomes the record `Dialog`: the
  input widgets the handlers read, the private members `isRelaying` and
  `nginxProcess`, and the parts of the outside world the handlers touch (the
  `QProcess` objects created so far, the content of `nginx.conf`, the message
  boxes shown, the log pane).
* What the handlers cannot decide themselves is passed in as `Env`: whether
  `QFile::open` succeeds, whether `waitForStarted(5000)` reports true (and, when
  it does not, whether the process failed or is still starting), and the
  wall-clock text used in log lines.
* A C++ exception is a value: `Result.threw` carries the state at the throw.
* What happens to the dialog over time is a list of `Event`s (widget edits,
  button clicks, timer ticks, a process coming up or exiting); `Reachable`
  collects the states they lead to from the fresh dialog. `loadSettings`, which
  the constructor runs on the stored settings, is such a list of widget edits.
* Text is `String`; inside string literals the characters U+007B and U+007D
  (curly braces) are written `\x7b` and `\x7d`.
-/

namespace StreamRelay

set_option maxRecDepth 100000

/-! ## Constants of `plugin-macros.h` -/

/-- Macro `DEFAULT_RTMP_PORT`. -/
def DEFAULT_RTMP_PORT : Int := 1935
/-- Macro `DEFAULT_BITRATE`. -/
def DEFAULT_BITRATE : Int := 6000
/-- Macro `DEFAULT_RECONNECT_ATTEMPTS` (defined in the header, used nowhere in the plugin). -/
def DEFAULT_RECONNECT_ATTEMPTS : Nat := 3
/-- Macro `MAX_RECONNECT_ATTEMPTS` (defined in the header, used nowhere in the plugin). -/
def MAX_RECONNECT_ATTEMPTS : Nat := 10
/-- Macro `TWITCH_RTMP_URL`. -/
def TWITCH_RTMP_URL : String := "rtmp://live.twitch.tv/app/"
/-- Macro `YOUTUBE_RTMP_URL`. -/
def YOUTUBE_RTMP_URL : String := "rtmp://a.rtmp.youtube.com/live2/"
/-- Macro `KICK_RTMP_URL`. -/
def KICK_RTMP_URL : String := "rtmp://ingest.kick.com/live/"

/-! ## Qt values used by the dialog -/

/-- A `QSpinBox`: an `int` value kept between `minimum` and `maximum`. -/
structure QSpinBox where
  minimum : Int
  maximum : Int
  value : Int
deriving DecidableEq, Repr

/-- Method `QSpinBox::setValue`: the new value is bound to the range of the box. -/
def QSpinBox.setValue (b : QSpinBox) (v : Int) : QSpinBox :=
  { b with value := max b.minimum (min b.maximum v) }

/-- The port box as `setupUI` builds it: `setRange(1024, 65535); setValue(1935)`. -/
def localPortBox : QSpinBox :=
  QSpinBox.setValue { minimum := 1024, maximum := 65535, value := 1024 } 1935

/-- The bitrate box as `setupUI` builds it: `setRange(1000, 50000); setValue(6000)`. -/
def maxBitrateBox : QSpinBox :=
  QSpinBox.setValue { minimum := 1000, maximum := 50000, value := 1000 } 6000

/-- The entries of the `qualityPreset` combo box, in the order of `addItems`.
The box is not editable, so its current text is always one of them. -/
inductive Preset where
  | UltraFast | SuperFast | VeryFast | Faster | Fast | Medium | Slow | Slower | VerySlow
deriving DecidableEq, Repr

/-- Method `QComboBox::currentText` of the `qualityPreset` box. -/
def Preset.currentText : Preset → String
  | .UltraFast => "Ultra Fast"
  | .SuperFast => "Super Fast"
  | .VeryFast => "Very Fast"
  | .Faster => "Faster"
  | .Fast => "Fast"
  | .Medium => "Medium"
  | .Slow => "Slow"
  | .Slower => "Slower"
  | .VerySlow => "Very Slow"

/-- The nine presets in combo-box order. -/
def Preset.all : List Preset :=
  [.UltraFast, .SuperFast, .VeryFast, .Faster, .Fast, .Medium, .Slow, .Slower, .VerySlow]

/-- Enum `QProcess::ProcessState`. -/
inductive ProcessState where
  | NotRunning | Starting | Running
deriving DecidableEq, Repr

/-- A `QProcess` object created by the dialog. -/
structure QProcess where
  program : String
  arguments : List String
  state : ProcessState
  /-- whether `kill()` has been called on it -/
  killed : Bool
deriving DecidableEq, Repr

/-- A modal `QMessageBox` shown to the user. -/
inductive MessageBox where
  | warning (title text : String)
  | information (title text : String)
  | critical (title text : String)
deriving DecidableEq, Repr

/-- The three streaming platforms the dialog knows. -/
inductive Platform where
  | twitch | youtube | kick
deriving DecidableEq, Repr

/-! ## The dialog -/

/-- State of a `StreamRelayDialog` together with the outside world it acts on. -/
structure Dialog where
  -- Platform Configuration tab
  twitchEnabled : Bool
  twitchKey : String
  youtubeEnabled : Bool
  youtubeKey : String
  kickEnabled : Bool
  kickKey : String
  localPort : QSpinBox
  -- Control tab
  startBtnEnabled : Bool
  stopBtnEnabled : Bool
  statusLabel : String
  /-- whether the progress bar `statusProgress` is shown -/
  statusProgressVisible : Bool
  -- Monitor tab
  logOutput : List String
  updateTimerActive : Bool
  -- Settings tab
  qualityPreset : Preset
  maxBitrate : QSpinBox
  autoReconnect : Bool
  enableLogging : Bool
  customFFmpegArgs : String
  -- Internal state
  isRelaying : Bool
  /-- the pointer `nginxProcess`: `none` is `nullptr`, `some h` is the
  `h`-th process object of `processes` -/
  nginxProcess : Option Nat
  statusTimerActive : Bool
  configPath : String
  -- Outside world
  /-- every `QProcess` made with `new QProcess(this)`, oldest first -/
  processes : List QProcess
  /-- content of `configPath + "nginx.conf"`, `none` while the file does not exist -/
  nginxConf : Option String
  /-- message boxes shown so far, oldest first -/
  messages : List MessageBox
deriving DecidableEq, Repr

/-- What a handler gets from the outside world while it runs. -/
structure Env where
  /-- `file.open(QIODevice::WriteOnly | QIODevice::Text)` succeeds -/
  fileOpens : Bool
  /-- `nginxProcess->waitForStarted(5000)` returns true -/
  started : Bool
  /-- read only when `started` is false: `waitForStarted(5000)` returned false
  because the five seconds ran out while the process was still starting (true),
  or because the process failed to start (false) -/
  timedOut : Bool := false
  /-- `QDateTime::currentDateTime().toString("hh:mm:ss")` -/
  now : String
deriving DecidableEq, Repr

/-- How a member function ends: it returns, or it leaves by a C++ exception
(`what` is the text of the `std::runtime_error`); both carry the state reached. -/
inductive Result where
  | returned (d : Dialog)
  | threw (d : Dialog) (what : String)
deriving DecidableEq, Repr

/-- State carried by a result. -/
def Result.dialog : Result → Dialog
  | .returned d => d
  | .threw d _ => d

/-- Whether the call left by an exception. -/
def Result.hasThrown : Result → Bool
  | .returned _ => false
  | .threw _ _ => true

/-- The dialog right after the constructor and `setupUI`, before settings are loaded. -/
def Dialog.initial (configPath : String) : Dialog :=
  { twitchEnabled := false, twitchKey := "", youtubeEnabled := false, youtubeKey := "",
    kickEnabled := false, kickKey := "", localPort := localPortBox,
    startBtnEnabled := true, stopBtnEnabled := false, statusLabel := "Status: Ready",
    statusProgressVisible := false, logOutput := [], updateTimerActive := false,
    qualityPreset := .VeryFast, maxBitrate := maxBitrateBox, autoReconnect := true,
    enableLogging := true, customFFmpegArgs := "",
    isRelaying := false, nginxProcess := none, statusTimerActive := false,
    configPath := configPath, processes := [], nginxConf := none, messages := [] }

/-! ## Rendering `nginx.conf` (`createNginxConfig`) -/

/-- Arithmetic on C++ `int`: the result wrapped to 32 bits, two's complement. -/
def wrapInt32 (x : Int) : Int :=
  (x + 2147483648) % 4294967296 - 2147483648

/-- Expression `qualityPreset->currentText().toLower().replace(" ", "")`. -/
def presetArg (p : Preset) : String :=
  String.mk ((p.currentText.data.map Char.toLower).filter (fun c => c != ' '))

/-- Lines 656-667: the server header and the opening of `application live`. -/
def confHead (d : Dialog) : String :=
  "worker_processes 1;\n" ++
  "events \x7b worker_connections 1024; \x7d\n\n" ++
  "rtmp \x7b\n" ++
  "    server \x7b\n" ++
  "        listen " ++ toString d.localPort.value ++ ";\n" ++
  "        chunk_size 4096;\n" ++
  "        allow publish all;\n" ++
  "        allow play all;\n\n" ++
  "        application live \x7b\n" ++
  "            live on;\n" ++
  "            record off;\n\n"

/-- Lines 670-678: the push directives of `application live`. -/
def confPushes (d : Dialog) : String :=
  (if d.twitchEnabled then "            push rtmp://localhost/twitch;\n" else "") ++
  (if d.youtubeEnabled then "            push rtmp://localhost/youtube;\n" else "") ++
  (if d.kickEnabled then "            push rtmp://localhost/kick;\n" else "")

/-- Lines 684-696: the body of `if (twitchEnabled->isChecked())`. -/
def twitchBlock (d : Dialog) : String :=
  "        application twitch \x7b\n" ++
  "            live on;\n" ++
  "            record off;\n" ++
  "            allow publish 127.0.0.1;\n" ++
  "            deny publish all;\n\n" ++
  "            exec ffmpeg -i rtmp://localhost/twitch/$name\n" ++
  "                -c:v libx264 -preset " ++ presetArg d.qualityPreset ++ "\n" ++
  "                -b:v " ++ toString d.maxBitrate.value ++ "k -maxrate " ++
    toString d.maxBitrate.value ++ "k -bufsize " ++ toString d.maxBitrate.value ++ "k\n" ++
  "                -pix_fmt yuv420p -g 50 -r 30\n" ++
  "                -c:a aac -b:a 160k -ar 44100 -ac 2\n" ++
  "                " ++ d.customFFmpegArgs ++ "\n" ++
  "                -f flv rtmp://live.twitch.tv/app/" ++ d.twitchKey ++ ";\n" ++
  "        \x7d\n\n"

/-- Lines 700-712: the body of `if (youtubeEnabled->isChecked())`. -/
def youtubeBlock (d : Dialog) : String :=
  "        application youtube \x7b\n" ++
  "            live on;\n" ++
  "            record off;\n" ++
  "            allow publish 127.0.0.1;\n" ++
  "            deny publish all;\n\n" ++
  "            exec ffmpeg -i rtmp://localhost/youtube/$name\n" ++
  "                -c:v libx264 -preset " ++ presetArg d.qualityPreset ++ "\n" ++
  "                -b:v " ++ toString (wrapInt32 (d.maxBitrate.value * 2)) ++ "k -maxrate " ++
    toString (wrapInt32 (d.maxBitrate.value * 2)) ++ "k -bufsize " ++
    toString (wrapInt32 (d.maxBitrate.value * 2)) ++ "k\n" ++
  "                -pix_fmt yuv420p -g 50 -r 30\n" ++
  "                -c:a aac -b:a 160k -ar 44100 -ac 2\n" ++
  "                " ++ d.customFFmpegArgs ++ "\n" ++
  "                -f flv rtmp://a.rtmp.youtube.com/live2/" ++ d.youtubeKey ++ ";\n" ++
  "        \x7d\n\n"

/-- Lines 716-728: the body of `if (kickEnabled->isChecked())`. -/
def kickBlock (d : Dialog) : String :=
  "        application kick \x7b\n" ++
  "            live on;\n" ++
  "            record off;\n" ++
  "            allow publish 127.0.0.1;\n" ++
  "            deny publish all;\n\n" ++
  "            exec ffmpeg -i rtmp://localhost/kick/$name\n" ++
  "                -c:v libx264 -preset " ++ presetArg d.qualityPreset ++ "\n" ++
  "                -b:v " ++ toString (wrapInt32 (d.maxBitrate.value + 4000)) ++ "k -maxrate " ++
    toString (wrapInt32 (d.maxBitrate.value + 4000)) ++ "k -bufsize " ++
    toString (wrapInt32 (d.maxBitrate.value + 4000)) ++ "k\n" ++
  "                -pix_fmt yuv420p -g 50 -r 30\n" ++
  "                -c:a aac -b:a 160k -ar 44100 -ac 2\n" ++
  "                " ++ d.customFFmpegArgs ++ "\n" ++
  "                -f flv rtmp://ingest.kick.com/live/" ++ d.kickKey ++ ";\n" ++
  "        \x7d\n\n"

/-- Everything `createNginxConfig` streams into `out` (lines 656-732). -/
def nginxConfigText (d : Dialog) : String :=
  confHead d ++
  confPushes d ++
  "        \x7d\n\n" ++
  (if d.twitchEnabled then twitchBlock d else "") ++
  (if d.youtubeEnabled then youtubeBlock d else "") ++
  (if d.kickEnabled then kickBlock d else "") ++
  "    \x7d\n" ++
  "\x7d\n"

/-- Member `createNginxConfig`: when the file opens (truncating it) the text is
written; when it does not, nothing happens and nothing is reported. -/
def createNginxConfig (e : Env) (d : Dialog) : Dialog :=
  if e.fileOpens then { d with nginxConf := some (nginxConfigText d) } else d

/-! ## Process control -/

/-- Member `startRTMPServer`: write the config, create a new `QProcess`, store
it in `nginxProcess`, start `nginx -c <configPath>nginx.conf`, and throw when
`waitForStarted(5000)` returns false. The new process is then running (the wait
succeeded), still starting (the wait timed out) or not running (it failed). -/
def startRTMPServer (e : Env) (d : Dialog) : Result :=
  let d1 := createNginxConfig e d
  let p : QProcess :=
    { program := "nginx", arguments := ["-c", d1.configPath ++ "nginx.conf"],
      state := if e.started then .Running else if e.timedOut then .Starting else .NotRunning,
      killed := false }
  let d2 := { d1 with processes := d1.processes ++ [p],
                      nginxProcess := some d1.processes.length }
  if !e.started then .threw d2 "Failed to start nginx process" else .returned d2

/-- Calls `kill()` and `waitForFinished(5000)` on the process object `h`. -/
def killProcess (h : Nat) (ps : List QProcess) : List QProcess :=
  ps.modify (fun p => { p with state := .NotRunning, killed := true }) h

/-- Member `stopRTMPServer`. -/
def stopRTMPServer (d : Dialog) : Dialog :=
  match d.nginxProcess with
  | some h => { d with processes := killProcess h d.processes, nginxProcess := none }
  | none => d

/-- Expression `nginxProcess->state()` for the process object `h`. -/
def processState (d : Dialog) (h : Nat) : ProcessState :=
  match d.processes[h]? with
  | some p => p.state
  | none => .NotRunning

/-- Slot `onStartRelay`. -/
def onStartRelay (e : Env) (d : Dialog) : Dialog :=
  if !d.twitchEnabled && !d.youtubeEnabled && !d.kickEnabled then
    { d with messages := d.messages ++ [.warning "Configuration Required"
        "Please enable and configure at least one streaming platform before starting."] }
  else if (d.twitchEnabled && d.twitchKey.isEmpty) ||
      (d.youtubeEnabled && d.youtubeKey.isEmpty) ||
      (d.kickEnabled && d.kickKey.isEmpty) then
    { d with messages := d.messages ++ [.warning "Stream Keys Required"
        "Please enter stream keys for all enabled platforms."] }
  else
    match startRTMPServer e d with
    | .returned d1 =>
      { d1 with
        isRelaying := true
        startBtnEnabled := false
        stopBtnEnabled := true
        statusLabel := "Status: Multi-Stream Relay Active"
        statusTimerActive := true
        updateTimerActive := true
        logOutput := d1.logOutput ++
          ["[" ++ e.now ++ "] Multi-stream relay started successfully"]
        messages := d1.messages ++ [.information "Relay Started"
          "Multi-stream relay is now active! Configure OBS with the RTMP URL shown above and start streaming."] }
    | .threw d1 what =>
      { d1 with messages := d1.messages ++
          [.critical "Error" ("Failed to start relay: " ++ what)] }

/-- Slot `onStopRelay` (`stopRTMPServer` never throws, so the handler of the
`try` block is never entered). -/
def onStopRelay (e : Env) (d : Dialog) : Dialog :=
  let d1 := stopRTMPServer d
  { d1 with
    isRelaying := false
    startBtnEnabled := true
    stopBtnEnabled := false
    statusLabel := "Status: Stopped"
    statusTimerActive := false
    updateTimerActive := false
    logOutput := d1.logOutput ++ ["[" ++ e.now ++ "] Multi-stream relay stopped"]
    messages := d1.messages ++
      [.information "Relay Stopped" "Multi-stream relay has been stopped."] }

/-- Slot `updateRelayStatus`, the health check run by `statusTimer`. The call
of `startRTMPServer` is not inside a `try` block: its exception leaves the slot. -/
def updateRelayStatus (e : Env) (d : Dialog) : Result :=
  match d.nginxProcess with
  | some h =>
    if processState d h != .Running then
      if d.autoReconnect then
        startRTMPServer e { d with logOutput := d.logOutput ++
          ["[" ++ e.now ++ "] Relay process died, attempting restart..."] }
      else
        let d1 := onStopRelay e d
        .returned { d1 with messages := d1.messages ++
          [.warning "Relay Error" "The relay process has stopped unexpectedly."] }
    else .returned d
  | none => .returned d

/-- The outside event "the process object `h` has exited" (nginx crashed or
was terminated by something other than the dialog). -/
def processExited (h : Nat) (d : Dialog) : Dialog :=
  { d with processes := d.processes.modify (fun p => { p with state := .NotRunning }) h }

/-- The outside event "the process object `h`, which was still starting when
`waitForStarted(5000)` gave up on it, has come up". -/
def processStarted (h : Nat) (d : Dialog) : Dialog :=
  let up : QProcess → QProcess := fun p =>
    if p.state = .Starting then { p with state := .Running } else p
  { d with processes := d.processes.modify up h }

/-! ## Vocabulary of the statements -/

/-- The check box of a platform. -/
def Dialog.enabled (d : Dialog) : Platform → Bool
  | .twitch => d.twitchEnabled
  | .youtube => d.youtubeEnabled
  | .kick => d.kickEnabled

/-- The stream key field of a platform. -/
def Dialog.key (d : Dialog) : Platform → String
  | .twitch => d.twitchKey
  | .youtube => d.youtubeKey
  | .kick => d.kickKey

/-- The platform is enabled and its key field is empty. -/
def Dialog.missingKey (d : Dialog) (p : Platform) : Bool :=
  d.enabled p && (d.key p).isEmpty

/-- The configuration passes both checks of `onStartRelay`: some platform is
enabled and no enabled platform has an empty key. -/
def Dialog.validConfig (d : Dialog) : Bool :=
  (d.twitchEnabled || d.youtubeEnabled || d.kickEnabled) &&
  !(d.missingKey .twitch || d.missingKey .youtube || d.missingKey .kick)

/-- An environment in which the config file opens and nginx starts. -/
def envOk : Env := { fileOpens := true, started := true, now := "12:00:00" }

/-- A fresh dialog with only Twitch ticked and no key typed. -/
def twitchWithoutKey : Dialog := { Dialog.initial "/cfg/" with twitchEnabled := true }

/-- A fresh dialog with only YouTube ticked and no key typed. -/
def youtubeWithoutKey : Dialog := { Dialog.initial "/cfg/" with youtubeEnabled := true }

/-- Number of positions of `s` at which `pat` starts. -/
def countOcc (pat : List Char) : List Char → Nat
  | [] => 0
  | c :: s => (if pat.isPrefixOf (c :: s) then 1 else 0) + countOcc pat s

/-- Number of occurrences of the text `pat` in `text`. -/
def occurrences (pat text : String) : Nat :=
  countOcc pat.data text.data

/-- Whether the text `pat` occurs somewhere in `text`. -/
def occursIn (pat text : String) : Bool :=
  occurrences pat text != 0

/-- Position of the first occurrence of `pat` in `s` (the length of `s` when there is none). -/
def firstOcc (pat : List Char) : List Char → Nat
  | [] => 0
  | c :: s => if pat.isPrefixOf (c :: s) then 0 else firstOcc pat s + 1

/-- Position of the first occurrence of the text `pat` in `text`. -/
def firstIndex (pat text : String) : Nat :=
  firstOcc pat.data text.data

/-- The scenario configuration: the stored defaults of `loadSettings` (port 1935,
preset "Very Fast", bitrate 6000, arguments "-tune zerolatency") with Twitch
enabled and the key "abc". -/
def scenarioDialog : Dialog :=
  { Dialog.initial "/cfg/" with
    twitchEnabled := true, twitchKey := "abc", customFFmpegArgs := "-tune zerolatency" }

/-- Identifier of a platform as used for its internal application name. -/
def Platform.id : Platform → String
  | .twitch => "twitch"
  | .youtube => "youtube"
  | .kick => "kick"

/-- Ingest URL template of a platform, from `plugin-macros.h`. -/
def Platform.url : Platform → String
  | .twitch => TWITCH_RTMP_URL
  | .youtube => YOUTUBE_RTMP_URL
  | .kick => KICK_RTMP_URL

/-- The application block `createNginxConfig` writes for a platform. -/
def Dialog.block (d : Dialog) : Platform → String
  | .twitch => twitchBlock d
  | .youtube => youtubeBlock d
  | .kick => kickBlock d

/-- Start of a platform block, through the `-preset` line and the indentation
of the bitrate line. -/
def execOpening (id : String) (p : Preset) : String :=
  "        application " ++ id ++ " \x7b\n" ++
  "            live on;\n" ++
  "            record off;\n" ++
  "            allow publish 127.0.0.1;\n" ++
  "            deny publish all;\n\n" ++
  "            exec ffmpeg -i rtmp://localhost/" ++ id ++ "/$name\n" ++
  "                -c:v libx264 -preset " ++ presetArg p ++ "\n" ++
  "                "

/-- The three video rate options, all carrying the value `v` followed by `k`. -/
def videoOptions (v : Int) : String :=
  "-b:v " ++ toString v ++ "k -maxrate " ++ toString v ++ "k -bufsize " ++ toString v ++ "k\n"

/-- The fixed pixel-format and audio options and the custom-arguments line. -/
def encoderTail (args : String) : String :=
  "                -pix_fmt yuv420p -g 50 -r 30\n" ++
  "                -c:a aac -b:a 160k -ar 44100 -ac 2\n" ++
  "                " ++ args ++ "\n"

/-- The output line of a platform block and the end of the block. -/
def outputLine (url key : String) : String :=
  "                -f flv " ++ url ++ key ++ ";\n" ++ "        \x7d\n\n"

/-- Event: `statusTimer` fires. The timer is connected to `updateRelayStatus`
and fires only while it is active. -/
def statusTimerTick (e : Env) (d : Dialog) : Result :=
  if d.statusTimerActive then updateRelayStatus e d else .returned d

/-- Event: the process `nginxProcess` points to exits on its own. -/
def crashCurrent (d : Dialog) : Dialog :=
  match d.nginxProcess with
  | some h => processExited h d
  | none => d

/-- One crash followed by the next health check. -/
def crashRound (e : Env) (d : Dialog) : Dialog :=
  (statusTimerTick e (crashCurrent d)).dialog

/-- Consecutive crashes, each followed by a health check run in the given environment. -/
def crashRounds : List Env → Dialog → Dialog
  | [], d => d
  | e :: es, d => crashRounds es (crashRound e d)

/-- An environment in which the config file opens but nginx does not start. -/
def envNoStart : Env := { fileOpens := true, started := false, now := "12:00:05" }

/-- The scenario relay, started and running. -/
def runningDialog : Dialog := onStartRelay envOk scenarioDialog

/-! ## Vocabulary for counting directives in the rendered text -/

/-- Whether some proper, non-empty end of `s` is a start of `pat`, so that an
occurrence of `pat` could begin in `s` and run past its end. -/
def overhang (pat : List Char) : List Char → Bool
  | [] => false
  | c :: s =>
    (decide ((c :: s).length < pat.length) && (c :: s).isPrefixOf pat) || overhang pat s

/-- No occurrence of `pat` starts inside `F` when `F` is followed by the character `r`. -/
def Blocks (pat F : List Char) (r : Char) : Prop :=
  ∀ R S : List Char, S ≠ [] → S <:+ F → pat.isPrefixOf (S ++ r :: R) = false

/-- A piece of the rendered text: literal text of the source (`lit`), or the
`i`-th inserted value followed by literal text of the source (`val`). -/
inductive Piece where
  | lit (s : String)
  | val (i : Nat) (s : String)
deriving DecidableEq, Repr

/-- The literal text of a piece. -/
def Piece.text : Piece → String
  | .lit s => s
  | .val _ s => s

/-- The inserted value in front of the literal text of a piece. -/
def Piece.value (vals : List (List Char)) : Piece → List Char
  | .lit _ => []
  | .val i _ => vals.getD i []

/-- The characters a list of pieces stands for. -/
def renderPieces (vals : List (List Char)) : List Piece → List Char
  | [] => []
  | p :: ps => p.value vals ++ (p.text.data ++ renderPieces vals ps)

/-- The literal text of the piece has no overhang for `pat`, and an inserted
value is followed by at least one literal character. -/
def Piece.wellFormed (pat : List Char) : Piece → Bool
  | .lit s => !overhang pat s.data
  | .val _ s => !s.data.isEmpty && !overhang pat s.data

/-- Occurrences of `pat` inside the literal texts of the pieces. -/
def litCount (pat : List Char) : List Piece → Nat
  | [] => 0
  | p :: ps => countOcc pat p.text.data + litCount pat ps

/-- Index of the first piece whose literal text contains `pat`. -/
def hitIndex (pat : List Char) : List Piece → Nat
  | [] => 0
  | p :: ps => if countOcc pat p.text.data = 0 then hitIndex pat ps + 1 else 0

/-- No occurrence of `pat` starts inside the inserted value of the piece. -/
def Piece.Safe (pat : List Char) (vals : List (List Char)) : Piece → Prop
  | .lit _ => True
  | .val i s => Blocks pat (vals.getD i []) (s.data.headD ' ')

/-- The values `createNginxConfig` inserts: port, preset, the three resolved
bitrates, the custom arguments and the three keys. -/
def confValues (d : Dialog) : List (List Char) :=
  [(toString d.localPort.value).data,
   (presetArg d.qualityPreset).data,
   (toString d.maxBitrate.value).data,
   (toString (wrapInt32 (d.maxBitrate.value * 2))).data,
   (toString (wrapInt32 (d.maxBitrate.value + 4000))).data,
   d.customFFmpegArgs.data,
   d.twitchKey.data,
   d.youtubeKey.data,
   d.kickKey.data]

/-- Pieces of a platform block: `id` in the literal text, value `b` as bitrate
and value `k` as key. -/
def blockPieces (head exec url : String) (b k : Nat) : List Piece :=
  [.lit head,
   .lit "            live on;\n",
   .lit "            record off;\n",
   .lit "            allow publish 127.0.0.1;\n",
   .lit "            deny publish all;\n\n",
   .lit exec,
   .lit "                -c:v libx264 -preset ",
   .val 1 "\n",
   .lit "                -b:v ",
   .val b "k -maxrate ",
   .val b "k -bufsize ",
   .val b "k\n",
   .lit "                -pix_fmt yuv420p -g 50 -r 30\n",
   .lit "                -c:a aac -b:a 160k -ar 44100 -ac 2\n",
   .lit "                ",
   .val 5 "\n",
   .lit url,
   .val k ";\n",
   .lit "        \x7d\n\n"]

/-- Pieces of `confHead` up to the opening of `application live`. -/
def headPieces : List Piece :=
  [.lit "worker_processes 1;\n",
   .lit "events \x7b worker_connections 1024; \x7d\n\n",
   .lit "rtmp \x7b\n",
   .lit "    server \x7b\n",
   .lit "        listen ",
   .val 0 ";\n",
   .lit "        chunk_size 4096;\n",
   .lit "        allow publish all;\n",
   .lit "        allow play all;\n\n"]

/-- Pieces between the opening and the closing of `application live`. -/
def livePieces (tw yt kk : Bool) : List Piece :=
  [.lit "            live on;\n",
   .lit "            record off;\n\n"] ++
  (if tw then [.lit "            push rtmp://localhost/twitch;\n"] else []) ++
  (if yt then [.lit "            push rtmp://localhost/youtube;\n"] else []) ++
  (if kk then [.lit "            push rtmp://localhost/kick;\n"] else [])

/-- Pieces after the closing of `application live`. -/
def tailPieces (tw yt kk : Bool) : List Piece :=
  (if tw then blockPieces "        application twitch \x7b\n"
      "            exec ffmpeg -i rtmp://localhost/twitch/$name\n"
      "                -f flv rtmp://live.twitch.tv/app/" 2 6 else []) ++
  (if yt then blockPieces "        application youtube \x7b\n"
      "            exec ffmpeg -i rtmp://localhost/youtube/$name\n"
      "                -f flv rtmp://a.rtmp.youtube.com/live2/" 3 7 else []) ++
  (if kk then blockPieces "        application kick \x7b\n"
      "            exec ffmpeg -i rtmp://localhost/kick/$name\n"
      "                -f flv rtmp://ingest.kick.com/live/" 4 8 else []) ++
  [.lit "    \x7d\n", .lit "\x7d\n"]

/-- The whole text of `createNginxConfig` as pieces, for given enabled flags. -/
def confPieces (tw yt kk : Bool) : List Piece :=
  headPieces ++ [.lit "        application live \x7b\n"] ++ livePieces tw yt kk ++
  [.lit "        \x7d\n\n"] ++ tailPieces tw yt kk

/-- What may follow each inserted value: numbers are followed by `;` or `k`,
the preset and the custom arguments by a line end, a key by `;`, and a key is
inserted only when its platform is enabled. -/
def Piece.kindOk (tw yt kk : Bool) : Piece → Bool
  | .lit _ => true
  | .val i s =>
    let r := s.data.headD ' '
    if i = 0 ∨ i = 2 ∨ i = 3 ∨ i = 4 then true
    else if i = 1 ∨ i = 5 then r == '\n'
    else if i = 6 then tw && r == ';'
    else if i = 7 then yt && r == ';'
    else if i = 8 then kk && r == ';'
    else false

/-- Position of a platform in the catalog order twitch, youtube, kick. -/
def Platform.index : Platform → Nat
  | .twitch => 0
  | .youtube => 1
  | .kick => 2

/-- The push directive of a platform without its closing `;`. -/
def pushMarker (p : Platform) : String := "push rtmp://localhost/" ++ p.id

/-- The push directive `push rtmp://localhost/<id>;` of a platform. -/
def pushDirective (p : Platform) : String := pushMarker p ++ ";"

/-- The opening `application <id>` of the block of a platform. -/
def appHeader (p : Platform) : String := "application " ++ p.id

/-- The text `t` contains no `push rtmp://localhost/<id>` and no `application <id>`. -/
def markerFreeText (t : String) : Bool :=
  [Platform.twitch, .youtube, .kick].all fun p =>
    !occursIn (pushMarker p) t && !occursIn (appHeader p) t

/-- Neither the custom arguments nor the key of an enabled platform contains
`push rtmp://localhost/<id>` or `application <id>` for any of the three ids. -/
def Dialog.markerFree (d : Dialog) : Bool :=
  markerFreeText d.customFFmpegArgs &&
  [Platform.twitch, .youtube, .kick].all fun q => !d.enabled q || markerFreeText (d.key q)

/-- The text between the opening line of `application live` and its closing brace. -/
def liveBody (d : Dialog) : String :=
  "            live on;\n" ++ "            record off;\n\n" ++ confPushes d

/-- The scenario configuration with custom arguments that end the `exec`
directive and the twitch block and open an `application youtube` block. -/
def injectedDialog : Dialog :=
  { scenarioDialog with
    customFFmpegArgs := "-an -f null -; \x7d application youtube \x7b exec ffmpeg -i in" }

/-- The same injection with two blanks between `application` and `youtube`. -/
def spacedInjectedDialog : Dialog :=
  { scenarioDialog with
    customFFmpegArgs := "-an -f null -; \x7d application  youtube \x7b exec ffmpeg -i in" }

/-- A configuration with all three platforms enabled. -/
def allEnabledDialog : Dialog :=
  { scenarioDialog with youtubeEnabled := true, youtubeKey := "def",
                        kickEnabled := true, kickKey := "ghi" }

/-! ## Remaining slots, teardown and the events that drive the dialog -/

/-- Slot `onPlatformToggled`. -/
def onPlatformToggled (d : Dialog) : Dialog :=
  { d with startBtnEnabled :=
      (d.twitchEnabled || d.youtubeEnabled || d.kickEnabled) && !d.isRelaying }

/-- Slot `onTestConnection` up to and including the call of `QTimer::singleShot`:
the progress bar is shown in its busy form. -/
def onTestConnection (d : Dialog) : Dialog :=
  { d with statusProgressVisible := true }

/-- The lambda `onTestConnection` hands to `QTimer::singleShot(3000, ...)`. -/
def onTestConnectionTimeout (e : Env) (d : Dialog) : Dialog :=
  { d with
    statusProgressVisible := false
    messages := d.messages ++ [.information "Connection Test"
      "Connection test completed. Check the monitor tab for details."]
    logOutput := d.logOutput ++ ["[" ++ e.now ++ "] Connection test completed"] }

/-- Destructor `~StreamRelayDialog`: the statements of its body (the
`delete settings` is not part of the state). What the base class `QObject` does
after the body has run, deleting the dialog's child objects, is not part of
this function. -/
def destroy (d : Dialog) : Dialog :=
  if d.isRelaying then stopRTMPServer d else d

/-- The check box of a platform set to `b`. -/
def Dialog.setEnabled (d : Dialog) (p : Platform) (b : Bool) : Dialog :=
  match p with
  | .twitch => { d with twitchEnabled := b }
  | .youtube => { d with youtubeEnabled := b }
  | .kick => { d with kickEnabled := b }

/-- The key field of a platform set to `k`. -/
def Dialog.setKey (d : Dialog) (p : Platform) (k : String) : Dialog :=
  match p with
  | .twitch => { d with twitchKey := k }
  | .youtube => { d with youtubeKey := k }
  | .kick => { d with kickKey := k }

/-- What can happen to the dialog: a widget is set (by the user or by
`loadSettings`), a button is clicked, a timer fires, or a process comes up or
exits. -/
inductive Event where
  | setEnabled (p : Platform) (b : Bool)
  | setKey (p : Platform) (k : String)
  | setPort (v : Int)
  | setBitrate (v : Int)
  | setPreset (q : Preset)
  | setAutoReconnect (b : Bool)
  | setLogging (b : Bool)
  | setCustomArgs (s : String)
  | clickStart (e : Env)
  | clickStop (e : Env)
  | clickTest
  | testTimeout (e : Env)
  | timerTick (e : Env)
  | processExit (h : Nat)
  | processUp (h : Nat)
deriving DecidableEq, Repr

/-- The dialog after an event. A check box emits `toggled`, which runs
`onPlatformToggled`, only when its state changes; a button reacts only while it
is enabled (`onStartRelay` and `onStopRelay` are private slots connected to
nothing but the `clicked` signal of their buttons). For a timer tick the state
is the one `updateRelayStatus` has reached when it returns or throws: whatever
the event loop does with the exception afterwards, the members the slot has
written by then are written. -/
def Dialog.step (d : Dialog) : Event → Dialog
  | .setEnabled p b => if d.enabled p = b then d else onPlatformToggled (d.setEnabled p b)
  | .setKey p k => d.setKey p k
  | .setPort v => { d with localPort := d.localPort.setValue v }
  | .setBitrate v => { d with maxBitrate := d.maxBitrate.setValue v }
  | .setPreset q => { d with qualityPreset := q }
  | .setAutoReconnect b => { d with autoReconnect := b }
  | .setLogging b => { d with enableLogging := b }
  | .setCustomArgs s => { d with customFFmpegArgs := s }
  | .clickStart e => if d.startBtnEnabled then onStartRelay e d else d
  | .clickStop e => if d.stopBtnEnabled then onStopRelay e d else d
  | .clickTest => onTestConnection d
  | .testTimeout e => onTestConnectionTimeout e d
  | .timerTick e => (statusTimerTick e d).dialog
  | .processExit h => processExited h d
  | .processUp h => processStarted h d

/-- The dialog after a list of events, first event first. -/
def Dialog.run : List Event → Dialog → Dialog
  | [], d => d
  | ev :: evs, d => Dialog.run evs (d.step ev)

/-- The states the dialog can be in: the fresh dialog and whatever events make of it. -/
inductive Reachable : Dialog → Prop where
  | initial (configPath : String) : Reachable (Dialog.initial configPath)
  | step (d : Dialog) (ev : Event) : Reachable d → Reachable (d.step ev)

/-- What holds in every reachable state: while relaying the start button is
disabled; the pointer, when set, is one of the process objects; and the health
check is armed only while relaying. -/
def Dialog.Inv (d : Dialog) : Prop :=
  (d.isRelaying = true → d.startBtnEnabled = false) ∧
  (∀ h, d.nginxProcess = some h → h < d.processes.length) ∧
  (d.statusTimerActive = true → d.isRelaying = true)

/-- The values `loadSettings` reads from `config.ini`. A key that is missing
from the file reads as the default the call of `settings->value` names. -/
structure Settings where
  twitchEnabled : Bool := false
  twitchKey : String := ""
  youtubeEnabled : Bool := false
  youtubeKey : String := ""
  kickEnabled : Bool := false
  kickKey : String := ""
  port : Int := 1935
  preset : String := "Very Fast"
  bitrate : Int := 6000
  autoReconnect : Bool := true
  logging : Bool := true
  ffmpegArgs : String := "-tune zerolatency"
deriving DecidableEq, Repr

/-- The widget setters `loadSettings` calls, in the order of the source.
`setCurrentText` on the preset box, which is not editable, selects the entry
with that text and does nothing when there is none. -/
def loadSettingsEvents (s : Settings) : List Event :=
  [.setEnabled .twitch s.twitchEnabled, .setKey .twitch s.twitchKey,
   .setEnabled .youtube s.youtubeEnabled, .setKey .youtube s.youtubeKey,
   .setEnabled .kick s.kickEnabled, .setKey .kick s.kickKey,
   .setPort s.port] ++
  (match Preset.all.find? (fun q => q.currentText == s.preset) with
   | some q => [.setPreset q]
   | none => []) ++
  [.setBitrate s.bitrate, .setAutoReconnect s.autoReconnect, .setLogging s.logging,
   .setCustomArgs s.ffmpegArgs]

/-- Member `loadSettings`, run by the constructor after `setupUI`. -/
def loadSettings (s : Settings) (d : Dialog) : Dialog :=
  Dialog.run (loadSettingsEvents s) d

/-- An environment in which the config file opens and `waitForStarted(5000)`
gives up while nginx is still starting. -/
def envSlowStart : Env :=
  { fileOpens := true, started := false, now := "12:00:05", timedOut := true }

/-- The scenario configuration is entered and Start is clicked; nginx takes
longer than the five seconds `waitForStarted(5000)` waits. -/
def slowStartEvents : List Event :=
  [.setEnabled .twitch true, .setKey .twitch "abc", .setCustomArgs "-tune zerolatency",
   .clickStart envSlowStart]

/-- The dialog after `slowStartEvents`. -/
def slowStartDialog : Dialog := Dialog.run slowStartEvents (Dialog.initial "/cfg/")

/-- After the slow start: the process comes up, Start is clicked again (the
button is still enabled) and succeeds, and Stop is clicked. -/
def lateProcessEvents : List Event :=
  [.processUp 0, .clickStart envOk, .clickStop envOk]

/-- The characters with a meaning of their own in the syntax of `nginx.conf`:
the semicolon that ends a directive, the two braces of a block, the double and
the single quote, the comment sign and the backslash. -/
def syntaxChars : List Char :=
  [';', '\x7b', '\x7d', Char.ofNat 34, Char.ofNat 39, Char.ofNat 35, Char.ofNat 92]

/-- The text `t` contains none of the characters `syntaxChars`. -/
def syntaxFreeText (t : String) : Bool :=
  t.data.all fun c => !syntaxChars.contains c

/-- Neither the custom arguments nor the key of an enabled platform contains
one of the characters `syntaxChars`. -/
def Dialog.syntaxFree (d : Dialog) : Bool :=
  syntaxFreeText d.customFFmpegArgs &&
  [Platform.twitch, .youtube, .kick].all fun q => !d.enabled q || syntaxFreeText (d.key q)

/-- Number of enabled platforms. -/
def Dialog.enabledCount (d : Dialog) : Nat :=
  ([Platform.twitch, .youtube, .kick].filter d.enabled).length

/-- Number of positions of `text` that hold the character `c`. -/
def charCount (c : Char) (text : String) : Nat :=
  countOcc [c] text.data

/-- The events that lead from the fresh dialog to the running scenario relay. -/
def scenarioEvents : List Event :=
  [.setEnabled .twitch true, .setKey .twitch "abc", .setCustomArgs "-tune zerolatency",
   .clickStart envOk]

/-- An environment in which the config file cannot be opened and nginx starts. -/
def envNoFile : Env := { fileOpens := false, started := true, now := "12:00:00" }

/-! ## Relay start: validation -/

/-- C1: when none of twitch, youtube and kick is enabled, `onStartRelay` only
shows the "Configuration Required" warning: the config file, the process
objects, `isRelaying`, the process pointer and every other member are unchanged. -/
theorem C1_no_platforms_enabled (e : Env) (d : Dialog)
    (ht : d.twitchEnabled = false) (hy : d.youtubeEnabled = false)
    (hk : d.kickEnabled = false) :
    onStartRelay e d = { d with messages := d.messages ++ [.warning "Configuration Required"
        "Please enable and configure at least one streaming platform before starting."] } ∧
    (onStartRelay e d).nginxConf = d.nginxConf ∧
    (onStartRelay e d).processes = d.processes ∧
    (onStartRelay e d).isRelaying = d.isRelaying ∧
    (onStartRelay e d).nginxProcess = d.nginxProcess := by
  simp [onStartRelay, ht, hy, hk]

/-- C2 (as stated, refuted): with only Twitch enabled and keyless, and with only
YouTube enabled and keyless, `onStartRelay` shows the very same message boxes, so
nothing computed from the report can name Twitch in the one case and YouTube in
the other. -/
theorem C2_report_does_not_name_platform :
    twitchWithoutKey.missingKey .twitch = true ∧
    twitchWithoutKey.missingKey .youtube = false ∧
    twitchWithoutKey.missingKey .kick = false ∧
    youtubeWithoutKey.missingKey .youtube = true ∧
    youtubeWithoutKey.missingKey .twitch = false ∧
    youtubeWithoutKey.missingKey .kick = false ∧
    (onStartRelay envOk twitchWithoutKey).messages =
      (onStartRelay envOk youtubeWithoutKey).messages ∧
    ¬ ∃ identify : List MessageBox → Platform,
        identify (onStartRelay envOk twitchWithoutKey).messages = .twitch ∧
        identify (onStartRelay envOk youtubeWithoutKey).messages = .youtube := by
  have h : (onStartRelay envOk twitchWithoutKey).messages =
      (onStartRelay envOk youtubeWithoutKey).messages := by decide
  refine ⟨by decide, by decide, by decide, by decide, by decide, by decide, h, ?_⟩
  rintro ⟨identify, h1, h2⟩
  rw [h, h2] at h1
  exact absurd h1 (by decide)

/-- C2 (amended): when some enabled platform has an empty key, `onStartRelay`
only shows the one generic "Stream Keys Required" warning, whichever platform it
is: the config file, the process objects, `isRelaying`, the process pointer and
every other member are unchanged. -/
theorem C2_missing_key_generic_warning (e : Env) (d : Dialog) (p : Platform)
    (h : d.missingKey p = true) :
    onStartRelay e d = { d with messages := d.messages ++ [.warning "Stream Keys Required"
        "Please enter stream keys for all enabled platforms."] } ∧
    (onStartRelay e d).nginxConf = d.nginxConf ∧
    (onStartRelay e d).processes = d.processes ∧
    (onStartRelay e d).isRelaying = d.isRelaying ∧
    (onStartRelay e d).nginxProcess = d.nginxProcess := by
  have key : onStartRelay e d = { d with messages := d.messages ++
      [.warning "Stream Keys Required"
        "Please enter stream keys for all enabled platforms."] } := by
    cases p <;>
      simp only [Dialog.missingKey, Dialog.enabled, Dialog.key, Bool.and_eq_true] at h <;>
      simp [onStartRelay, h.1, h.2]
  rw [key]
  exact ⟨rfl, rfl, rfl, rfl, rfl⟩

/-- Witness for C2 (amended): a fresh dialog with Twitch ticked and no key. -/
theorem C2_missing_key_generic_warning_witness :
    twitchWithoutKey.missingKey .twitch = true ∧
    onStartRelay envOk twitchWithoutKey =
      { twitchWithoutKey with messages := twitchWithoutKey.messages ++
          [.warning "Stream Keys Required"
            "Please enter stream keys for all enabled platforms."] } :=
  ⟨by decide, (C2_missing_key_generic_warning envOk twitchWithoutKey .twitch (by decide)).1⟩

/-- Witness for C1: the fresh dialog has no platform ticked. -/
theorem C1_no_platforms_enabled_witness :
    (Dialog.initial "/cfg/").twitchEnabled = false ∧
    (Dialog.initial "/cfg/").youtubeEnabled = false ∧
    (Dialog.initial "/cfg/").kickEnabled = false ∧
    (onStartRelay envOk (Dialog.initial "/cfg/")).nginxConf = (Dialog.initial "/cfg/").nginxConf ∧
    (onStartRelay envOk (Dialog.initial "/cfg/")).processes = (Dialog.initial "/cfg/").processes :=
  ⟨rfl, rfl, rfl,
   (C1_no_platforms_enabled envOk (Dialog.initial "/cfg/") rfl rfl rfl).2.1,
   (C1_no_platforms_enabled envOk (Dialog.initial "/cfg/") rfl rfl rfl).2.2.1⟩

/-! ## Rendering: blocks, bitrates, destinations -/

/-- The twitch block, piece by piece. -/
theorem twitchBlock_eq (d : Dialog) :
    twitchBlock d = execOpening "twitch" d.qualityPreset ++ videoOptions d.maxBitrate.value ++
      encoderTail d.customFFmpegArgs ++ outputLine TWITCH_RTMP_URL d.twitchKey := by
  simp only [twitchBlock, execOpening, videoOptions, encoderTail, outputLine, TWITCH_RTMP_URL,
    String.append_assoc]
  rfl

/-- The youtube block, piece by piece. -/
theorem youtubeBlock_eq (d : Dialog) :
    youtubeBlock d = execOpening "youtube" d.qualityPreset ++
      videoOptions (wrapInt32 (d.maxBitrate.value * 2)) ++
      encoderTail d.customFFmpegArgs ++ outputLine YOUTUBE_RTMP_URL d.youtubeKey := by
  simp only [youtubeBlock, execOpening, videoOptions, encoderTail, outputLine, YOUTUBE_RTMP_URL,
    String.append_assoc]
  rfl

/-- The kick block, piece by piece. -/
theorem kickBlock_eq (d : Dialog) :
    kickBlock d = execOpening "kick" d.qualityPreset ++
      videoOptions (wrapInt32 (d.maxBitrate.value + 4000)) ++
      encoderTail d.customFFmpegArgs ++ outputLine KICK_RTMP_URL d.kickKey := by
  simp only [kickBlock, execOpening, videoOptions, encoderTail, outputLine, KICK_RTMP_URL,
    String.append_assoc]
  rfl

/-- The block of an enabled platform is part of the rendered text. -/
theorem block_in_text (d : Dialog) (p : Platform) (h : d.enabled p = true) :
    ∃ pre post, nginxConfigText d = pre ++ d.block p ++ post := by
  cases p <;> simp only [Dialog.enabled] at h
  · exact ⟨confHead d ++ confPushes d ++ "        \x7d\n\n",
      (if d.youtubeEnabled then youtubeBlock d else "") ++
      (if d.kickEnabled then kickBlock d else "") ++ "    \x7d\n" ++ "\x7d\n",
      by simp [nginxConfigText, Dialog.block, h, String.append_assoc]⟩
  · exact ⟨confHead d ++ confPushes d ++ "        \x7d\n\n" ++
      (if d.twitchEnabled then twitchBlock d else ""),
      (if d.kickEnabled then kickBlock d else "") ++ "    \x7d\n" ++ "\x7d\n",
      by simp [nginxConfigText, Dialog.block, h, String.append_assoc]⟩
  · exact ⟨confHead d ++ confPushes d ++ "        \x7d\n\n" ++
      (if d.twitchEnabled then twitchBlock d else "") ++
      (if d.youtubeEnabled then youtubeBlock d else ""),
      "    \x7d\n" ++ "\x7d\n",
      by simp [nginxConfigText, Dialog.block, h, String.append_assoc]⟩

/-- C5: for every enabled platform and whatever its key is, the platform block
ends with the `-f flv` line whose destination is the platform URL of
`plugin-macros.h` directly followed by the key as typed, then `;`; the block is
part of the rendered text; and when the file opens, `createNginxConfig` writes
exactly the rendered text, so the file holds that line with the key unchanged. -/
theorem C5_destination_verbatim (e : Env) (d : Dialog) (p : Platform)
    (h : d.enabled p = true) :
    (∃ pre, d.block p = pre ++ outputLine p.url (d.key p)) ∧
    (∃ pre post, nginxConfigText d = pre ++ outputLine p.url (d.key p) ++ post) ∧
    (e.fileOpens = true →
      (createNginxConfig e d).nginxConf = some (nginxConfigText d) ∧
      ∃ pre post, (createNginxConfig e d).nginxConf =
        some (pre ++ ("                -f flv " ++ p.url ++ d.key p ++ ";\n") ++ post)) := by
  have hb : ∃ pre, d.block p = pre ++ outputLine p.url (d.key p) := by
    cases p
    · exact ⟨_, twitchBlock_eq d⟩
    · exact ⟨_, youtubeBlock_eq d⟩
    · exact ⟨_, kickBlock_eq d⟩
  have ht : ∃ pre post, nginxConfigText d = pre ++ outputLine p.url (d.key p) ++ post := by
    obtain ⟨pre, hpre⟩ := hb
    obtain ⟨a, b, hab⟩ := block_in_text d p h
    exact ⟨a ++ pre, b, by rw [hab, hpre]; simp only [String.append_assoc]⟩
  refine ⟨hb, ht, ?_⟩
  intro ho
  have hw : (createNginxConfig e d).nginxConf = some (nginxConfigText d) := by
    simp only [createNginxConfig, ho, if_true]
  refine ⟨hw, ?_⟩
  obtain ⟨pre, post, hpp⟩ := ht
  refine ⟨pre, "        \x7d\n\n" ++ post, ?_⟩
  rw [hw, hpp]
  simp only [outputLine, String.append_assoc]

/-- Witness for C5: Twitch is enabled in the scenario configuration, and the file
written holds the destination `rtmp://live.twitch.tv/app/abc`. -/
theorem C5_destination_verbatim_witness :
    scenarioDialog.enabled .twitch = true ∧
    envOk.fileOpens = true ∧
    ∃ pre post, (createNginxConfig envOk scenarioDialog).nginxConf =
      some (pre ++ ("                -f flv " ++ Platform.twitch.url ++
        scenarioDialog.key .twitch ++ ";\n") ++ post) :=
  ⟨by decide, by decide,
   ((C5_destination_verbatim envOk scenarioDialog .twitch (by decide)).2.2 (by decide)).2⟩

/-- C6: the rendered text is a function of the port, the three enabled flags,
the three keys, the preset, the base bitrate and the custom arguments alone: two
dialogs that agree on these render the same text, whatever else differs (earlier
file content, relay state, processes, messages, other widgets), and when the file
opens the content written is the same. -/
theorem C6_render_deterministic (d1 d2 : Dialog) (e1 e2 : Env)
    (hport : d1.localPort.value = d2.localPort.value)
    (htw : d1.twitchEnabled = d2.twitchEnabled) (hyt : d1.youtubeEnabled = d2.youtubeEnabled)
    (hkk : d1.kickEnabled = d2.kickEnabled)
    (htk : d1.twitchKey = d2.twitchKey) (hyk : d1.youtubeKey = d2.youtubeKey)
    (hkkey : d1.kickKey = d2.kickKey)
    (hpre : d1.qualityPreset = d2.qualityPreset)
    (hbit : d1.maxBitrate.value = d2.maxBitrate.value)
    (hargs : d1.customFFmpegArgs = d2.customFFmpegArgs)
    (ho1 : e1.fileOpens = true) (ho2 : e2.fileOpens = true) :
    nginxConfigText d1 = nginxConfigText d2 ∧
    (createNginxConfig e1 d1).nginxConf = (createNginxConfig e2 d2).nginxConf ∧
    (createNginxConfig e1 d1).nginxConf = some (nginxConfigText d1) := by
  have ht : nginxConfigText d1 = nginxConfigText d2 := by
    simp only [nginxConfigText, confHead, confPushes, twitchBlock, youtubeBlock, kickBlock,
      hport, htw, hyt, hkk, htk, hyk, hkkey, hpre, hbit, hargs]
  refine ⟨ht, ?_, ?_⟩
  · simp only [createNginxConfig, ho1, ho2, if_true, ht]
  · simp only [createNginxConfig, ho1, if_true]

/-- Witness for C6: the scenario dialog before and after an unrelated change of
state (a relay marked running, an older file on disk) renders the same text. -/
theorem C6_render_deterministic_witness :
    nginxConfigText scenarioDialog =
      nginxConfigText { scenarioDialog with isRelaying := true, nginxConf := some "old",
                                            autoReconnect := false } :=
  (C6_render_deterministic scenarioDialog
    { scenarioDialog with isRelaying := true, nginxConf := some "old", autoReconnect := false }
    envOk envOk rfl rfl rfl rfl rfl rfl rfl rfl rfl rfl rfl rfl).1

/-- C7: end-to-end scenario (only Twitch enabled, key "abc", port 1935, base
bitrate 6000, the other settings at their stored defaults). Both checks of
`onStartRelay` pass, the relay starts with one nginx process and no warning, and
the config written is the text below: it contains `listen 1935;`, exactly one
`application twitch` block, no youtube or kick block, 6000k as bitrate, and a
destination that ends in `/abc`. -/
theorem C7_end_to_end_scenario :
    scenarioDialog.validConfig = true ∧
    (onStartRelay envOk scenarioDialog).isRelaying = true ∧
    (onStartRelay envOk scenarioDialog).processes =
      [{ program := "nginx", arguments := ["-c", "/cfg/nginx.conf"],
         state := .Running, killed := false }] ∧
    (onStartRelay envOk scenarioDialog).messages = [.information "Relay Started"
      "Multi-stream relay is now active! Configure OBS with the RTMP URL shown above and start streaming."] ∧
    (onStartRelay envOk scenarioDialog).nginxConf = some (nginxConfigText scenarioDialog) ∧
    nginxConfigText scenarioDialog =
      "worker_processes 1;\n" ++
      "events \x7b worker_connections 1024; \x7d\n\n" ++
      "rtmp \x7b\n" ++
      "    server \x7b\n" ++
      "        listen 1935;\n" ++
      "        chunk_size 4096;\n" ++
      "        allow publish all;\n" ++
      "        allow play all;\n\n" ++
      "        application live \x7b\n" ++
      "            live on;\n" ++
      "            record off;\n\n" ++
      "            push rtmp://localhost/twitch;\n" ++
      "        \x7d\n\n" ++
      "        application twitch \x7b\n" ++
      "            live on;\n" ++
      "            record off;\n" ++
      "            allow publish 127.0.0.1;\n" ++
      "            deny publish all;\n\n" ++
      "            exec ffmpeg -i rtmp://localhost/twitch/$name\n" ++
      "                -c:v libx264 -preset veryfast\n" ++
      "                -b:v 6000k -maxrate 6000k -bufsize 6000k\n" ++
      "                -pix_fmt yuv420p -g 50 -r 30\n" ++
      "                -c:a aac -b:a 160k -ar 44100 -ac 2\n" ++
      "                -tune zerolatency\n" ++
      "                -f flv rtmp://live.twitch.tv/app/abc;\n" ++
      "        \x7d\n\n" ++
      "    \x7d\n" ++
      "\x7d\n" ∧
    occurrences "listen 1935;" (nginxConfigText scenarioDialog) = 1 ∧
    occurrences "application twitch" (nginxConfigText scenarioDialog) = 1 ∧
    occurrences "application youtube" (nginxConfigText scenarioDialog) = 0 ∧
    occurrences "application kick" (nginxConfigText scenarioDialog) = 0 ∧
    occurrences "-b:v 6000k -maxrate 6000k -bufsize 6000k" (twitchBlock scenarioDialog) = 1 ∧
    occurrences "-f flv rtmp://live.twitch.tv/app/abc;" (twitchBlock scenarioDialog) = 1 ∧
    (∃ pre, twitchBlock scenarioDialog = pre ++ "/abc;\n        \x7d\n\n") := by
  refine ⟨by decide, by decide, by decide, by decide, by decide, by decide, by decide,
    by decide, by decide, by decide, by decide, by decide, ?_⟩
  refine ⟨execOpening "twitch" .VeryFast ++ videoOptions 6000 ++
    encoderTail "-tune zerolatency" ++ "                -f flv rtmp://live.twitch.tv/app", ?_⟩
  decide

/-! ## Passing both checks -/

/-- A configuration that passes both checks reaches `startRTMPServer`. -/
theorem onStartRelay_of_valid (e : Env) (d : Dialog) (h : d.validConfig = true) :
    onStartRelay e d =
      match startRTMPServer e d with
      | .returned d1 =>
        { d1 with
          isRelaying := true
          startBtnEnabled := false
          stopBtnEnabled := true
          statusLabel := "Status: Multi-Stream Relay Active"
          statusTimerActive := true
          updateTimerActive := true
          logOutput := d1.logOutput ++
            ["[" ++ e.now ++ "] Multi-stream relay started successfully"]
          messages := d1.messages ++ [.information "Relay Started"
            "Multi-stream relay is now active! Configure OBS with the RTMP URL shown above and start streaming."] }
      | .threw d1 what =>
        { d1 with messages := d1.messages ++
            [.critical "Error" ("Failed to start relay: " ++ what)] } := by
  simp only [Dialog.validConfig, Dialog.missingKey, Dialog.enabled, Dialog.key,
    Bool.and_eq_true, Bool.or_eq_true, Bool.not_eq_true', Bool.or_eq_false_iff,
    Bool.and_eq_false_imp] at h
  obtain ⟨hen, ⟨ht, hy⟩, hk⟩ := h
  have h1 : (!d.twitchEnabled && !d.youtubeEnabled && !d.kickEnabled) = false := by
    rcases hen with (h | h) | h <;> simp [h]
  have h2 : ((d.twitchEnabled && d.twitchKey.isEmpty) ||
      (d.youtubeEnabled && d.youtubeKey.isEmpty) ||
      (d.kickEnabled && d.kickKey.isEmpty)) = false := by
    simp only [Bool.or_eq_false_iff, Bool.and_eq_false_imp]
    exact ⟨⟨ht, hy⟩, hk⟩
  simp only [onStartRelay, h1, h2, Bool.false_eq_true, if_false]

/-! ## Health check and restarts -/

/-- One crash round with auto-reconnect: the health check creates exactly one
new process object and points `nginxProcess` at it; the relay stays marked as
relaying and the timer stays active. -/
theorem crashRound_restarts (e : Env) (d : Dialog) (h : Nat)
    (hauto : d.autoReconnect = true) (htimer : d.statusTimerActive = true)
    (hproc : d.nginxProcess = some h) (hlt : h < d.processes.length) :
    (crashRound e d).processes.length = d.processes.length + 1 ∧
    (crashRound e d).nginxProcess = some d.processes.length ∧
    (crashRound e d).autoReconnect = true ∧
    (crashRound e d).statusTimerActive = true ∧
    (crashRound e d).isRelaying = d.isRelaying ∧
    (e.started = true →
      processState (crashRound e d) d.processes.length = .Running) := by
  have hst : processState (processExited h d) h = .NotRunning := by
    simp only [processState, processExited, List.getElem?_modify]
    rw [List.getElem?_eq_getElem hlt]
    simp
  have hcur : crashCurrent d = processExited h d := by
    simp only [crashCurrent, hproc]
  have hp : (processExited h d).nginxProcess = some h := by
    simp only [processExited, hproc]
  simp only [crashRound, hcur, statusTimerTick, updateRelayStatus, hp, hst]
  simp only [processExited, htimer, hauto, if_true]
  cases hs : e.started <;> cases ho : e.fileOpens <;>
    simp [startRTMPServer, createNginxConfig, hs, ho, Result.dialog, List.length_modify,
      processState]

/-- Consecutive crash rounds with auto-reconnect: one new process object per round. -/
theorem crashRounds_restarts (es : List Env) (d : Dialog) (h : Nat)
    (hauto : d.autoReconnect = true) (htimer : d.statusTimerActive = true)
    (hproc : d.nginxProcess = some h) (hlt : h < d.processes.length) :
    (crashRounds es d).processes.length = d.processes.length + es.length ∧
    (crashRounds es d).statusTimerActive = true ∧
    (crashRounds es d).autoReconnect = true ∧
    (crashRounds es d).isRelaying = d.isRelaying := by
  induction es generalizing d h with
  | nil => simp [crashRounds, htimer, hauto]
  | cons e es ih =>
    obtain ⟨h1, h2, h3, h4, h5, -⟩ := crashRound_restarts e d h hauto htimer hproc hlt
    obtain ⟨i1, i2, i3, i4⟩ := ih (crashRound e d) d.processes.length h3 h4 h2 (by omega)
    refine ⟨?_, i2, i3, ?_⟩
    · simp only [crashRounds, i1, h1, List.length_cons]; omega
    · simp only [crashRounds, i4, h5]

/-- C9 (as stated, refuted): with auto-reconnect on and `DEFAULT_RECONNECT_ATTEMPTS`
equal to 3, four consecutive crashes of the running scenario relay lead to four
restarts: after the fourth crash a fifth process object exists, it is running,
the relay is still marked relaying and the health check is still armed. -/
theorem C9_fourth_crash_restarts :
    DEFAULT_RECONNECT_ATTEMPTS = 3 ∧
    runningDialog.autoReconnect = true ∧
    runningDialog.processes.length = 1 ∧
    (crashRounds [envOk, envOk, envOk] runningDialog).processes.length = 4 ∧
    (crashRounds [envOk, envOk, envOk, envOk] runningDialog).processes.length = 5 ∧
    (crashRounds [envOk, envOk, envOk, envOk] runningDialog).nginxProcess = some 4 ∧
    processState (crashRounds [envOk, envOk, envOk, envOk] runningDialog) 4 = .Running ∧
    (crashRounds [envOk, envOk, envOk, envOk] runningDialog).isRelaying = true ∧
    (crashRounds [envOk, envOk, envOk, envOk] runningDialog).statusTimerActive = true := by
  refine ⟨by decide, by decide, by decide, by decide, by decide, by decide, by decide,
    by decide, by decide⟩

/-- C9 (amended): with auto-reconnect on there is no attempt cap. From a relay
whose health check is armed and whose process pointer is set, `n` consecutive
crashes, each followed by a health check, lead to exactly `n` calls of
`startRTMPServer` (`n` new process objects), for every `n`; the relay stays
marked relaying, the health check stays armed, and no permanent-failure state
is entered. -/
theorem C9_restarts_unbounded (es : List Env) (d : Dialog) (h : Nat)
    (hauto : d.autoReconnect = true) (htimer : d.statusTimerActive = true)
    (hproc : d.nginxProcess = some h) (hlt : h < d.processes.length) :
    (crashRounds es d).processes.length = d.processes.length + es.length ∧
    (crashRounds es d).isRelaying = d.isRelaying ∧
    (crashRounds es d).statusTimerActive = true ∧
    (crashRounds es d).autoReconnect = true := by
  obtain ⟨h1, h2, h3, h4⟩ := crashRounds_restarts es d h hauto htimer hproc hlt
  exact ⟨h1, h4, h2, h3⟩

/-- Witness for C9 (amended): ten crashes of the running scenario relay. -/
theorem C9_restarts_unbounded_witness :
    runningDialog.autoReconnect = true ∧ runningDialog.statusTimerActive = true ∧
    runningDialog.nginxProcess = some 0 ∧ 0 < runningDialog.processes.length ∧
    (crashRounds (List.replicate 10 envOk) runningDialog).processes.length =
      runningDialog.processes.length + (List.replicate 10 envOk).length :=
  ⟨by decide, by decide, by decide, by decide,
   (C9_restarts_unbounded (List.replicate 10 envOk) runningDialog 0
     (by decide) (by decide) (by decide) (by decide)).1⟩

/-- C10 (the code at the failing input): the scenario relay is running with
auto-reconnect on, nginx exits, and at the next health check nginx does not
start. `updateRelayStatus` leaves by the exception of `startRTMPServer`; the
relay is still marked relaying, the health check is still armed, and the process
pointer is the new, dead process. The following health check therefore calls
`startRTMPServer` again (a third process object). On the sibling path a start
that fails inside `onStartRelay` is caught: the relay is not marked relaying,
the health check is not armed, and a timer tick does nothing. -/
theorem C10_failed_restart_is_retried :
    runningDialog.isRelaying = true ∧
    runningDialog.autoReconnect = true ∧
    runningDialog.processes.length = 1 ∧
    (statusTimerTick envNoStart (crashCurrent runningDialog)).hasThrown = true ∧
    (crashRound envNoStart runningDialog).isRelaying = true ∧
    (crashRound envNoStart runningDialog).statusTimerActive = true ∧
    (crashRound envNoStart runningDialog).nginxProcess = some 1 ∧
    processState (crashRound envNoStart runningDialog) 1 = .NotRunning ∧
    (crashRound envNoStart runningDialog).processes.length = 2 ∧
    (statusTimerTick envNoStart (crashRound envNoStart runningDialog)).dialog.processes.length
      = 3 ∧
    (onStartRelay envNoStart scenarioDialog).isRelaying = false ∧
    (onStartRelay envNoStart scenarioDialog).statusTimerActive = false ∧
    (onStartRelay envNoStart scenarioDialog).messages =
      [.critical "Error" "Failed to start relay: Failed to start nginx process"] ∧
    statusTimerTick envOk (onStartRelay envNoStart scenarioDialog) =
      .returned (onStartRelay envNoStart scenarioDialog) := by
  refine ⟨by decide, by decide, by decide, by decide, by decide, by decide, by decide,
    by decide, by decide, by decide, by decide, by decide, by decide, by decide⟩

/-! ## Rendering: one directive per enabled platform -/

/-- Without overhang, whether `pat` starts `X ++ R` is decided inside `X`. -/
theorem isPrefixOf_append_of_no_overhang (pat X R : List Char)
    (h : (decide (X.length < pat.length) && X.isPrefixOf pat) = false) :
    pat.isPrefixOf (X ++ R) = pat.isPrefixOf X := by
  rw [Bool.eq_iff_iff]
  simp only [List.isPrefixOf_iff_prefix]
  constructor
  · intro hp
    rcases List.prefix_or_prefix_of_prefix hp (List.prefix_append X R) with h1 | h1
    · exact h1
    · by_cases hl : X.length < pat.length
      · simp only [hl, decide_True, Bool.true_and] at h
        have h1b : X.isPrefixOf pat = true := List.isPrefixOf_iff_prefix.mpr h1
        rw [h1b] at h
        exact absurd h (by decide)
      · have : X = pat := h1.eq_of_length_le (by omega)
        rw [this]
  · intro hp
    exact hp.trans (List.prefix_append X R)

/-- Without overhang, occurrences in `A ++ R` are those in `A` plus those in `R`. -/
theorem countOcc_append (pat A R : List Char) (h : overhang pat A = false) :
    countOcc pat (A ++ R) = countOcc pat A + countOcc pat R := by
  induction A with
  | nil => simp [countOcc]
  | cons c s ih =>
    simp only [overhang, Bool.or_eq_false_iff] at h
    have e := isPrefixOf_append_of_no_overhang pat (c :: s) R h.1
    simp only [List.cons_append] at e ⊢
    simp only [countOcc, e, ih h.2]
    omega

/-- The first occurrence is never past the end of the text. -/
theorem firstOcc_le_length (pat s : List Char) : firstOcc pat s ≤ s.length := by
  induction s with
  | nil => simp [firstOcc]
  | cons c s ih =>
    simp only [firstOcc, List.length_cons]
    split <;> omega

/-- When `pat` occurs, its first occurrence is inside the text. -/
theorem firstOcc_lt_length (pat s : List Char) (h : countOcc pat s ≠ 0) :
    firstOcc pat s < s.length := by
  induction s with
  | nil => simp [countOcc] at h
  | cons c s ih =>
    simp only [firstOcc, List.length_cons]
    by_cases hp : pat.isPrefixOf (c :: s) = true
    · simp [hp]
    · simp only [countOcc, hp, if_false, Nat.zero_add, Bool.false_eq_true] at h ⊢
      have := ih h
      omega

/-- When `pat` does not occur, `firstOcc` is the length of the text. -/
theorem firstOcc_eq_length (pat s : List Char) (h : countOcc pat s = 0) :
    firstOcc pat s = s.length := by
  induction s with
  | nil => simp [firstOcc]
  | cons c s ih =>
    simp only [countOcc, Nat.add_eq_zero] at h
    have hp : pat.isPrefixOf (c :: s) = false := by
      by_contra hc
      simp only [Bool.not_eq_false] at hc
      simp [hc] at h
    simp [firstOcc, hp, ih h.2]

/-- Without overhang, a first occurrence inside `A` stays the first one of `A ++ R`. -/
theorem firstOcc_append_hit (pat A R : List Char) (h : overhang pat A = false)
    (hc : countOcc pat A ≠ 0) : firstOcc pat (A ++ R) = firstOcc pat A := by
  induction A with
  | nil => simp [countOcc] at hc
  | cons c s ih =>
    simp only [overhang, Bool.or_eq_false_iff] at h
    have e := isPrefixOf_append_of_no_overhang pat (c :: s) R h.1
    simp only [List.cons_append] at e ⊢
    simp only [firstOcc, e]
    by_cases hp : pat.isPrefixOf (c :: s) = true
    · simp [hp]
    · simp only [countOcc, hp, if_false, Nat.zero_add, Bool.false_eq_true] at hc ⊢
      rw [ih h.2 hc]

/-- Without overhang and occurrence in `A`, the first occurrence of `A ++ R` is the one of `R`, shifted. -/
theorem firstOcc_append_miss (pat A R : List Char) (h : overhang pat A = false)
    (hc : countOcc pat A = 0) : firstOcc pat (A ++ R) = A.length + firstOcc pat R := by
  induction A with
  | nil => simp
  | cons c s ih =>
    simp only [overhang, Bool.or_eq_false_iff] at h
    have e := isPrefixOf_append_of_no_overhang pat (c :: s) R h.1
    simp only [List.cons_append] at e ⊢
    simp only [countOcc, Nat.add_eq_zero] at hc
    have hp : pat.isPrefixOf (c :: s) = false := by
      by_contra hx
      simp only [Bool.not_eq_false] at hx
      simp [hx] at hc
    simp only [firstOcc, e, hp, ih h.2 hc.2, List.length_cons, Bool.false_eq_true, if_false]
    omega

/-- The property `Blocks` passes to the tail of the inserted text. -/
theorem Blocks.tail {pat : List Char} {c : Char} {F : List Char} {r : Char}
    (h : Blocks pat (c :: F) r) : Blocks pat F r :=
  fun R S hS hsuf => h R S hS (hsuf.trans (List.suffix_cons c F))

/-- An inserted text that blocks `pat` adds no occurrence. -/
theorem countOcc_blocks (pat F : List Char) (r : Char) (R : List Char) (h : Blocks pat F r) :
    countOcc pat (F ++ r :: R) = countOcc pat (r :: R) := by
  induction F with
  | nil => simp
  | cons c s ih =>
    have hp := h R (c :: s) (by simp) (List.suffix_refl _)
    simp only [List.cons_append] at hp ⊢
    rw [countOcc, hp, ih h.tail]
    simp

/-- An inserted text that blocks `pat` only shifts the first occurrence. -/
theorem firstOcc_blocks (pat F : List Char) (r : Char) (R : List Char) (h : Blocks pat F r) :
    firstOcc pat (F ++ r :: R) = F.length + firstOcc pat (r :: R) := by
  induction F with
  | nil => simp
  | cons c s ih =>
    have hp := h R (c :: s) (by simp) (List.suffix_refl _)
    simp only [List.cons_append] at hp ⊢
    rw [firstOcc, hp, ih h.tail]
    simp only [Bool.false_eq_true, if_false, List.length_cons]
    omega

/-- A text one of whose ends starts with `M` contains `M`. -/
theorem countOcc_pos_of_prefix_suffix (M S F : List Char) (hS : S <:+ F) (hM : M <+: S)
    (hne : S ≠ []) : countOcc M F ≠ 0 := by
  induction F with
  | nil =>
    have : S = [] := List.suffix_nil.mp hS
    exact absurd this hne
  | cons c s ih =>
    rcases List.suffix_cons_iff.mp hS with h1 | h1
    · subst h1
      have : M.isPrefixOf (c :: s) = true := by simpa using hM
      simp [countOcc, this]
    · have := ih h1
      simp only [countOcc]
      omega

/-- A text without the marker `M`, followed by a character that is not in `M`, blocks every pattern that starts with `M`. -/
theorem blocks_of_marker (pat M F : List Char) (r : Char) (hM : M <+: pat)
    (hF : countOcc M F = 0) (hr : r ∉ M) : Blocks pat F r := by
  intro R S hS hsuf
  by_contra hc
  simp only [Bool.not_eq_false, List.isPrefixOf_iff_prefix] at hc
  have hMS : M <+: S ++ r :: R := hM.trans hc
  rcases List.prefix_or_prefix_of_prefix hMS (List.prefix_append S (r :: R)) with h1 | h1
  · exact countOcc_pos_of_prefix_suffix M S F hsuf h1 hS hF
  · obtain ⟨t, ht⟩ := h1
    rw [← ht] at hMS
    have h2 : t <+: r :: R := (List.prefix_append_right_inj S).mp hMS
    cases t with
    | nil =>
      simp only [List.append_nil] at ht
      subst ht
      exact countOcc_pos_of_prefix_suffix S S F hsuf (List.prefix_refl _) hS hF
    | cons x t =>
      have : x = r := by
        obtain ⟨u, hu⟩ := h2
        simp only [List.cons_append, List.cons.injEq] at hu
        exact hu.1
      subst this
      exact hr (by rw [← ht]; simp)

/-- Occurrences in a piece followed by `R`. -/
theorem countOcc_piece (pat : List Char) (vals : List (List Char)) (p : Piece) (R : List Char)
    (hw : p.wellFormed pat = true) (hs : p.Safe pat vals) :
    countOcc pat (p.value vals ++ (p.text.data ++ R)) = countOcc pat p.text.data + countOcc pat R := by
  cases p with
  | lit s =>
    simp only [Piece.wellFormed, Bool.not_eq_true'] at hw
    simp only [Piece.value, Piece.text, List.nil_append]
    exact countOcc_append pat s.data R hw
  | val i s =>
    simp only [Piece.wellFormed, Bool.and_eq_true, Bool.not_eq_true'] at hw
    simp only [Piece.value, Piece.text]
    simp only [Piece.Safe] at hs
    cases hd : s.data with
    | nil => simp [hd] at hw
    | cons r t =>
      rw [hd] at hs hw
      simp only [List.headD_cons] at hs
      rw [List.cons_append, countOcc_blocks pat _ r _ hs, ← List.cons_append]
      exact countOcc_append pat (r :: t) R hw.2

/-- Occurrences in rendered pieces are the occurrences inside their literal texts. -/
theorem countOcc_renderPieces (pat : List Char) (vals : List (List Char)) (t : List Piece)
    (hw : ∀ p ∈ t, p.wellFormed pat = true) (hs : ∀ p ∈ t, p.Safe pat vals) :
    countOcc pat (renderPieces vals t) = litCount pat t := by
  induction t with
  | nil => simp [renderPieces, litCount, countOcc]
  | cons p ps ih =>
    rw [renderPieces, countOcc_piece pat vals p _ (hw p (by simp)) (hs p (by simp)), litCount,
      ih (fun q hq => hw q (by simp [hq])) (fun q hq => hs q (by simp [hq]))]

/-- A piece whose literal text lacks `pat` only shifts the first occurrence. -/
theorem firstOcc_piece_miss (pat : List Char) (vals : List (List Char)) (p : Piece) (R : List Char)
    (hw : p.wellFormed pat = true) (hs : p.Safe pat vals) (hc : countOcc pat p.text.data = 0) :
    firstOcc pat (p.value vals ++ (p.text.data ++ R)) =
      (p.value vals).length + p.text.data.length + firstOcc pat R := by
  cases p with
  | lit s =>
    simp only [Piece.wellFormed, Bool.not_eq_true'] at hw
    simp only [Piece.value, Piece.text, List.nil_append, List.length_nil, Nat.zero_add] at hc ⊢
    exact firstOcc_append_miss pat s.data R hw hc
  | val i s =>
    simp only [Piece.wellFormed, Bool.and_eq_true, Bool.not_eq_true'] at hw
    simp only [Piece.value, Piece.text] at hc ⊢
    simp only [Piece.Safe] at hs
    cases hd : s.data with
    | nil => simp [hd] at hw
    | cons r t =>
      rw [hd] at hs hw hc
      simp only [List.headD_cons] at hs
      rw [List.cons_append, firstOcc_blocks pat _ r _ hs, ← List.cons_append,
        firstOcc_append_miss pat (r :: t) R hw.2 hc]
      omega

/-- A piece whose literal text holds `pat` holds the first occurrence. -/
theorem firstOcc_piece_hit (pat : List Char) (vals : List (List Char)) (p : Piece) (R : List Char)
    (hw : p.wellFormed pat = true) (hs : p.Safe pat vals) (hc : countOcc pat p.text.data ≠ 0) :
    firstOcc pat (p.value vals ++ (p.text.data ++ R)) <
      (p.value vals).length + p.text.data.length := by
  cases p with
  | lit s =>
    simp only [Piece.wellFormed, Bool.not_eq_true'] at hw
    simp only [Piece.value, Piece.text, List.nil_append, List.length_nil, Nat.zero_add] at hc ⊢
    rw [firstOcc_append_hit pat s.data R hw hc]
    exact firstOcc_lt_length pat s.data hc
  | val i s =>
    simp only [Piece.wellFormed, Bool.and_eq_true, Bool.not_eq_true'] at hw
    simp only [Piece.value, Piece.text] at hc ⊢
    simp only [Piece.Safe] at hs
    cases hd : s.data with
    | nil => simp [hd] at hw
    | cons r t =>
      rw [hd] at hs hw hc
      simp only [List.headD_cons] at hs
      rw [List.cons_append, firstOcc_blocks pat _ r _ hs, ← List.cons_append,
        firstOcc_append_hit pat (r :: t) R hw.2 hc]
      have := firstOcc_lt_length pat (r :: t) hc
      omega

/-- When the literal text holding `patA` comes before the one holding `patB`, the
first occurrence of `patA` in the rendered text comes before that of `patB`. -/
theorem firstOcc_lt_of_hitIndex (patA patB : List Char) (vals : List (List Char))
    (t : List Piece)
    (hwA : ∀ p ∈ t, p.wellFormed patA = true) (hsA : ∀ p ∈ t, p.Safe patA vals)
    (hwB : ∀ p ∈ t, p.wellFormed patB = true) (hsB : ∀ p ∈ t, p.Safe patB vals)
    (hA : hitIndex patA t < t.length) (hAB : hitIndex patA t < hitIndex patB t) :
    firstOcc patA (renderPieces vals t) < firstOcc patB (renderPieces vals t) := by
  induction t with
  | nil => simp at hA
  | cons p ps ih =>
    have wA := hwA p (by simp)
    have sA := hsA p (by simp)
    have wB := hwB p (by simp)
    have sB := hsB p (by simp)
    simp only [hitIndex] at hA hAB
    by_cases hb : countOcc patB p.text.data = 0
    · simp only [hb, if_true] at hAB
      rw [renderPieces, firstOcc_piece_miss patB vals p _ wB sB hb]
      by_cases ha : countOcc patA p.text.data = 0
      · simp only [ha, if_true, List.length_cons, Nat.add_lt_add_iff_right] at hA hAB
        rw [firstOcc_piece_miss patA vals p _ wA sA ha]
        have := ih (fun q hq => hwA q (by simp [hq])) (fun q hq => hsA q (by simp [hq]))
          (fun q hq => hwB q (by simp [hq])) (fun q hq => hsB q (by simp [hq])) hA hAB
        omega
      · have := firstOcc_piece_hit patA vals p (renderPieces vals ps) wA sA ha
        omega
    · simp only [hb, if_false] at hAB
      omega

/-- Rendering distributes over concatenation of piece lists. -/
theorem renderPieces_append (vals : List (List Char)) (a b : List Piece) :
    renderPieces vals (a ++ b) = renderPieces vals a ++ renderPieces vals b := by
  induction a with
  | nil => simp [renderPieces]
  | cons p ps ih => simp [renderPieces, ih, List.append_assoc]

/-- The twitch block is what its pieces stand for. -/
theorem twitchBlock_data (d : Dialog) :
    (twitchBlock d).data = renderPieces (confValues d)
      (blockPieces "        application twitch \x7b\n"
        "            exec ffmpeg -i rtmp://localhost/twitch/$name\n"
        "                -f flv rtmp://live.twitch.tv/app/" 2 6) := by
  simp only [twitchBlock, String.data_append, blockPieces, renderPieces, Piece.value,
    Piece.text, confValues, List.append_assoc, List.nil_append, List.append_nil]
  rfl

/-- The youtube block is what its pieces stand for. -/
theorem youtubeBlock_data (d : Dialog) :
    (youtubeBlock d).data = renderPieces (confValues d)
      (blockPieces "        application youtube \x7b\n"
        "            exec ffmpeg -i rtmp://localhost/youtube/$name\n"
        "                -f flv rtmp://a.rtmp.youtube.com/live2/" 3 7) := by
  simp only [youtubeBlock, String.data_append, blockPieces, renderPieces, Piece.value,
    Piece.text, confValues, List.append_assoc, List.nil_append, List.append_nil]
  rfl

/-- The kick block is what its pieces stand for. -/
theorem kickBlock_data (d : Dialog) :
    (kickBlock d).data = renderPieces (confValues d)
      (blockPieces "        application kick \x7b\n"
        "            exec ffmpeg -i rtmp://localhost/kick/$name\n"
        "                -f flv rtmp://ingest.kick.com/live/" 4 8) := by
  simp only [kickBlock, String.data_append, blockPieces, renderPieces, Piece.value,
    Piece.text, confValues, List.append_assoc, List.nil_append, List.append_nil]
  rfl

/-- The head of the text, as pieces. -/
theorem confHead_data (d : Dialog) :
    (confHead d).data = renderPieces (confValues d)
      (headPieces ++ [.lit "        application live \x7b\n", .lit "            live on;\n",
        .lit "            record off;\n\n"]) := by
  simp only [confHead, String.data_append, headPieces, renderPieces, Piece.value,
    Piece.text, confValues, List.append_assoc, List.nil_append, List.append_nil,
    List.cons_append]
  rfl

/-- The push directives, as pieces. -/
theorem confPushes_data (d : Dialog) :
    (confPushes d).data = renderPieces (confValues d)
      ((if d.twitchEnabled then [.lit "            push rtmp://localhost/twitch;\n"] else []) ++
       (if d.youtubeEnabled then [.lit "            push rtmp://localhost/youtube;\n"] else []) ++
       (if d.kickEnabled then [.lit "            push rtmp://localhost/kick;\n"] else [])) := by
  have e : ("" : String).data = [] := rfl
  cases ht : d.twitchEnabled <;> cases hy : d.youtubeEnabled <;> cases hk : d.kickEnabled <;>
    simp only [confPushes, ht, hy, hk, String.data_append, renderPieces, Piece.value,
      Piece.text, List.append_assoc, List.nil_append, List.append_nil, List.cons_append,
      if_true, if_false, Bool.false_eq_true, e]

/-- The head of the text and the body of `application live`, as pieces. -/
theorem confHead_confPushes_data (d : Dialog) :
    (confHead d ++ confPushes d).data = renderPieces (confValues d)
      (headPieces ++ [.lit "        application live \x7b\n"] ++
        livePieces d.twitchEnabled d.youtubeEnabled d.kickEnabled) := by
  rw [String.data_append, confHead_data, confPushes_data, ← renderPieces_append]
  simp only [livePieces, List.append_assoc, List.cons_append, List.nil_append]

/-- The blocks and the end of the text, as pieces. -/
theorem confTail_data (d : Dialog) :
    ((if d.twitchEnabled then twitchBlock d else "") ++
      (if d.youtubeEnabled then youtubeBlock d else "") ++
      (if d.kickEnabled then kickBlock d else "") ++ "    \x7d\n" ++ "\x7d\n").data =
    renderPieces (confValues d) (tailPieces d.twitchEnabled d.youtubeEnabled d.kickEnabled) := by
  have e : ("" : String).data = [] := rfl
  cases ht : d.twitchEnabled <;> cases hy : d.youtubeEnabled <;> cases hk : d.kickEnabled <;>
    simp only [tailPieces, renderPieces_append, String.data_append, twitchBlock_data,
      youtubeBlock_data, kickBlock_data, if_true, if_false, Bool.false_eq_true, e,
      renderPieces, Piece.value, Piece.text, List.nil_append, List.append_nil,
      List.append_assoc]

/-- The rendered text is what its pieces stand for. -/
theorem nginxConfigText_data (d : Dialog) :
    (nginxConfigText d).data =
      renderPieces (confValues d) (confPieces d.twitchEnabled d.youtubeEnabled d.kickEnabled) := by
  have h : nginxConfigText d = (confHead d ++ confPushes d) ++ "        \x7d\n\n" ++
      ((if d.twitchEnabled then twitchBlock d else "") ++
      (if d.youtubeEnabled then youtubeBlock d else "") ++
      (if d.kickEnabled then kickBlock d else "") ++ "    \x7d\n" ++ "\x7d\n") := by
    simp only [nginxConfigText, String.append_assoc]
  have hc : renderPieces (confValues d) [.lit "        \x7d\n\n"] = "        \x7d\n\n".data := by
    simp only [renderPieces, Piece.value, Piece.text, List.nil_append, List.append_nil]
  rw [h, String.data_append, String.data_append, confHead_confPushes_data, confTail_data]
  simp only [confPieces, renderPieces_append, hc]

/-- Every piece of the text is well formed for the push markers and directives. -/
theorem confPieces_wellFormed (tw yt kk : Bool) (p : Platform) :
    (confPieces tw yt kk).all (fun x => x.wellFormed (pushDirective p).data) = true ∧
    (confPieces tw yt kk).all (fun x => x.wellFormed (appHeader p).data) = true := by
  cases tw <;> cases yt <;> cases kk <;> cases p <;> decide

/-- Occurrences inside the literal text: one per enabled platform. -/
theorem confPieces_litCount (tw yt kk : Bool) :
    litCount (pushDirective .twitch).data (confPieces tw yt kk) = (if tw then 1 else 0) ∧
    litCount (pushDirective .youtube).data (confPieces tw yt kk) = (if yt then 1 else 0) ∧
    litCount (pushDirective .kick).data (confPieces tw yt kk) = (if kk then 1 else 0) ∧
    litCount (appHeader .twitch).data (confPieces tw yt kk) = (if tw then 1 else 0) ∧
    litCount (appHeader .youtube).data (confPieces tw yt kk) = (if yt then 1 else 0) ∧
    litCount (appHeader .kick).data (confPieces tw yt kk) = (if kk then 1 else 0) := by
  cases tw <;> cases yt <;> cases kk <;> decide

/-- Every inserted value is followed by what `Piece.kindOk` allows. -/
theorem confPieces_kindOk (tw yt kk : Bool) :
    (confPieces tw yt kk).all (Piece.kindOk tw yt kk) = true := by
  cases tw <;> cases yt <;> cases kk <;> decide

/-- A decimal digit character is one of `0..9`. -/
theorem digitChar_mem (n : Nat) (h : n < 10) :
    Nat.digitChar n ∈ ['0', '1', '2', '3', '4', '5', '6', '7', '8', '9'] := by
  interval_cases n <;> decide

/-- Every character `Nat.toDigitsCore` adds is a decimal digit. -/
theorem toDigitsCore_mem (fuel n : Nat) (ds : List Char) (c : Char)
    (h : c ∈ Nat.toDigitsCore 10 fuel n ds) :
    c ∈ ds ∨ c ∈ ['0', '1', '2', '3', '4', '5', '6', '7', '8', '9'] := by
  induction fuel generalizing n ds with
  | zero => left; simpa [Nat.toDigitsCore] using h
  | succ f ih =>
    simp only [Nat.toDigitsCore] at h
    split at h
    · rcases List.mem_cons.mp h with h1 | h1
      · right; rw [h1]; exact digitChar_mem _ (Nat.mod_lt _ (by decide))
      · left; exact h1
    · rcases ih _ _ h with h1 | h1
      · rcases List.mem_cons.mp h1 with h2 | h2
        · right; rw [h2]; exact digitChar_mem _ (Nat.mod_lt _ (by decide))
        · left; exact h2
      · right; exact h1

/-- The decimal text of an `int` consists of digits and possibly a minus sign. -/
theorem toString_int_mem (v : Int) (c : Char) (h : c ∈ (toString v).data) :
    c ∈ ['-', '0', '1', '2', '3', '4', '5', '6', '7', '8', '9'] := by
  cases v with
  | ofNat m =>
    have h' : c ∈ Nat.toDigitsCore 10 (m + 1) m [] := h
    rcases toDigitsCore_mem _ _ _ _ h' with h1 | h1
    · simp at h1
    · exact List.mem_cons_of_mem _ h1
  | negSucc m =>
    have h' : c ∈ '-' :: Nat.toDigitsCore 10 (m + 1 + 1) (m + 1) [] := h
    rcases List.mem_cons.mp h' with h1 | h1
    · rw [h1]; simp
    · rcases toDigitsCore_mem _ _ _ _ h1 with h2 | h2
      · simp at h2
      · exact List.mem_cons_of_mem _ h2

/-- No occurrence of a pattern starts inside a text that lacks the first
character of the pattern. -/
theorem blocks_of_head (a : Char) (pat F : List Char) (r : Char) (h : a ∉ F) :
    Blocks (a :: pat) F r := by
  intro R S hS hsuf
  cases S with
  | nil => exact absurd rfl hS
  | cons c S =>
    have hc : c ∈ F := hsuf.subset (by simp)
    have hne : a ≠ c := fun e => h (e ▸ hc)
    simp [List.isPrefixOf, hne]


/-- The characters a decimal `int` text can hold. -/
theorem blocks_number (pat : List Char) (v : Int) (r : Char)
    (hh : ∃ a, pat.head? = some a ∧
      a ∉ ['-', '0', '1', '2', '3', '4', '5', '6', '7', '8', '9']) :
    Blocks pat (toString v).data r := by
  obtain ⟨a, h1, h2⟩ := hh
  cases pat with
  | nil => simp at h1
  | cons b pat =>
    simp only [List.head?_cons, Option.some.injEq] at h1
    subst h1
    exact blocks_of_head b pat _ r (fun hc => h2 (toString_int_mem v b hc))

/-- Under the stated conditions on the inserted texts, no occurrence of `pat`
starts inside an inserted value of the rendered text. -/
theorem safe_of_kindOk (d : Dialog) (pat M : List Char) (hM : M <+: pat)
    (hh : ∃ a, pat.head? = some a ∧
      a ∉ ['-', '0', '1', '2', '3', '4', '5', '6', '7', '8', '9'])
    (hnl : '\n' ∉ M) (hsc : ';' ∉ M)
    (hpreset : countOcc M (presetArg d.qualityPreset).data = 0)
    (hargs : countOcc M d.customFFmpegArgs.data = 0)
    (htw : d.twitchEnabled = true → countOcc M d.twitchKey.data = 0)
    (hyt : d.youtubeEnabled = true → countOcc M d.youtubeKey.data = 0)
    (hkk : d.kickEnabled = true → countOcc M d.kickKey.data = 0)
    (x : Piece) (hx : x.kindOk d.twitchEnabled d.youtubeEnabled d.kickEnabled = true) :
    x.Safe pat (confValues d) := by
  cases x with
  | lit s => trivial
  | val i s =>
    simp only [Piece.kindOk] at hx
    simp only [Piece.Safe]
    by_cases h0 : i = 0 ∨ i = 2 ∨ i = 3 ∨ i = 4
    · rcases h0 with h | h | h | h <;> subst h <;> exact blocks_number pat _ _ hh
    · simp only [h0, if_false] at hx
      by_cases h1 : i = 1 ∨ i = 5
      · simp only [h1, if_true, beq_iff_eq] at hx
        rw [hx]
        rcases h1 with h | h <;> subst h
        · exact blocks_of_marker pat M _ _ hM hpreset hnl
        · exact blocks_of_marker pat M _ _ hM hargs hnl
      · simp only [h1, if_false] at hx
        by_cases h6 : i = 6
        · simp only [h6, if_true, Bool.and_eq_true, beq_iff_eq] at hx
          subst h6
          rw [hx.2]
          exact blocks_of_marker pat M _ _ hM (htw hx.1) hsc
        · simp only [h6, if_false] at hx
          by_cases h7 : i = 7
          · simp only [h7, if_true, Bool.and_eq_true, beq_iff_eq] at hx
            subst h7
            rw [hx.2]
            exact blocks_of_marker pat M _ _ hM (hyt hx.1) hsc
          · simp only [h7, if_false] at hx
            by_cases h8 : i = 8
            · simp only [h8, if_true, Bool.and_eq_true, beq_iff_eq] at hx
              subst h8
              rw [hx.2]
              exact blocks_of_marker pat M _ _ hM (hkk hx.1) hsc
            · simp [h8] at hx

/-- The preset names contain no push marker and no application header. -/
theorem preset_markerFree (q : Preset) (p : Platform) :
    countOcc (pushMarker p).data (presetArg q).data = 0 ∧
    countOcc (appHeader p).data (presetArg q).data = 0 := by
  cases q <;> cases p <;> decide

/-- Shape of the markers: they start the directives, begin with a letter and
hold neither a line end nor a semicolon. -/
theorem marker_shape (p : Platform) :
    (pushMarker p).data <+: (pushDirective p).data ∧
    (∃ a, (pushDirective p).data.head? = some a ∧
      a ∉ ['-', '0', '1', '2', '3', '4', '5', '6', '7', '8', '9']) ∧
    '\n' ∉ (pushMarker p).data ∧ ';' ∉ (pushMarker p).data ∧
    (∃ a, (appHeader p).data.head? = some a ∧
      a ∉ ['-', '0', '1', '2', '3', '4', '5', '6', '7', '8', '9']) ∧
    '\n' ∉ (appHeader p).data ∧ ';' ∉ (appHeader p).data := by
  refine ⟨?_, ⟨'p', ?_, by decide⟩, ?_, ?_, ⟨'a', ?_, by decide⟩, ?_, ?_⟩
  · exact ⟨[';'], by cases p <;> rfl⟩
  all_goals cases p <;> decide


/-- A marker-free text holds no push marker and no application header. -/
theorem markerFreeText_countOcc (t : String) (h : markerFreeText t = true) (p : Platform) :
    countOcc (pushMarker p).data t.data = 0 ∧ countOcc (appHeader p).data t.data = 0 := by
  simp only [markerFreeText, occursIn, occurrences, List.all_cons, List.all_nil, Bool.and_true,
    Bool.and_eq_true, Bool.not_eq_true', bne_eq_false_iff_eq] at h
  obtain ⟨⟨h1, h2⟩, ⟨h3, h4⟩, h5, h6⟩ := h
  cases p
  · exact ⟨h1, h2⟩
  · exact ⟨h3, h4⟩
  · exact ⟨h5, h6⟩

/-- In a marker-free configuration the key of an enabled platform is marker free. -/
theorem markerFree_key (d : Dialog) (h : d.markerFree = true) (q : Platform)
    (hq : d.enabled q = true) : markerFreeText (d.key q) = true := by
  simp only [Dialog.markerFree, List.all_cons, List.all_nil, Bool.and_true, Bool.and_eq_true,
    Bool.or_eq_true, Bool.not_eq_true'] at h
  obtain ⟨-, h1, h2, h3⟩ := h
  cases q
  · rcases h1 with h | h
    · rw [hq] at h; exact absurd h (by decide)
    · exact h
  · rcases h2 with h | h
    · rw [hq] at h; exact absurd h (by decide)
    · exact h
  · rcases h3 with h | h
    · rw [hq] at h; exact absurd h (by decide)
    · exact h

/-- In a marker-free configuration no push directive starts inside an inserted value. -/
theorem confPieces_safe_push (d : Dialog) (h : d.markerFree = true) (p : Platform) :
    ∀ x ∈ confPieces d.twitchEnabled d.youtubeEnabled d.kickEnabled,
      x.Safe (pushDirective p).data (confValues d) := by
  intro x hx
  have hargs : markerFreeText d.customFFmpegArgs = true := by
    simp only [Dialog.markerFree, Bool.and_eq_true] at h
    exact h.1
  obtain ⟨s1, s2, s3, s4, -, -, -⟩ := marker_shape p
  exact safe_of_kindOk d _ (pushMarker p).data s1 s2 s3 s4
    (preset_markerFree d.qualityPreset p).1
    (markerFreeText_countOcc _ hargs p).1
    (fun e => (markerFreeText_countOcc _ (markerFree_key d h .twitch e) p).1)
    (fun e => (markerFreeText_countOcc _ (markerFree_key d h .youtube e) p).1)
    (fun e => (markerFreeText_countOcc _ (markerFree_key d h .kick e) p).1)
    x (List.all_eq_true.mp (confPieces_kindOk _ _ _) x hx)

/-- In a marker-free configuration no application header starts inside an inserted value. -/
theorem confPieces_safe_app (d : Dialog) (h : d.markerFree = true) (p : Platform) :
    ∀ x ∈ confPieces d.twitchEnabled d.youtubeEnabled d.kickEnabled,
      x.Safe (appHeader p).data (confValues d) := by
  intro x hx
  have hargs : markerFreeText d.customFFmpegArgs = true := by
    simp only [Dialog.markerFree, Bool.and_eq_true] at h
    exact h.1
  obtain ⟨-, -, -, -, s2, s3, s4⟩ := marker_shape p
  exact safe_of_kindOk d _ (appHeader p).data (List.prefix_refl _) s2 s3 s4
    (preset_markerFree d.qualityPreset p).2
    (markerFreeText_countOcc _ hargs p).2
    (fun e => (markerFreeText_countOcc _ (markerFree_key d h .twitch e) p).2)
    (fun e => (markerFreeText_countOcc _ (markerFree_key d h .youtube e) p).2)
    (fun e => (markerFreeText_countOcc _ (markerFree_key d h .kick e) p).2)
    x (List.all_eq_true.mp (confPieces_kindOk _ _ _) x hx)

/-- In a marker-free configuration the text holds one push directive and one
application header per enabled platform and none for a disabled one. -/
theorem directive_counts (d : Dialog) (h : d.markerFree = true) (p : Platform) :
    occurrences (pushDirective p) (nginxConfigText d) = (if d.enabled p then 1 else 0) ∧
    occurrences (appHeader p) (nginxConfigText d) = (if d.enabled p then 1 else 0) := by
  have hw := confPieces_wellFormed d.twitchEnabled d.youtubeEnabled d.kickEnabled p
  have hl := confPieces_litCount d.twitchEnabled d.youtubeEnabled d.kickEnabled
  constructor
  · rw [occurrences, nginxConfigText_data,
      countOcc_renderPieces _ _ _ (fun x hx => List.all_eq_true.mp hw.1 x hx)
        (confPieces_safe_push d h p)]
    cases p
    · exact hl.1
    · exact hl.2.1
    · exact hl.2.2.1
  · rw [occurrences, nginxConfigText_data,
      countOcc_renderPieces _ _ _ (fun x hx => List.all_eq_true.mp hw.2 x hx)
        (confPieces_safe_app d h p)]
    cases p
    · exact hl.2.2.2.1
    · exact hl.2.2.2.2.1
    · exact hl.2.2.2.2.2

/-- The literal text that first holds the directive of an earlier enabled platform
comes before the one of a later enabled platform. -/
theorem confPieces_hitIndex (tw yt kk : Bool) (p q : Platform) (hpq : p.index < q.index)
    (hp : (match p with | .twitch => tw | .youtube => yt | .kick => kk) = true)
    (hq : (match q with | .twitch => tw | .youtube => yt | .kick => kk) = true) :
    hitIndex (pushDirective p).data (confPieces tw yt kk) < (confPieces tw yt kk).length ∧
    hitIndex (pushDirective p).data (confPieces tw yt kk) <
      hitIndex (pushDirective q).data (confPieces tw yt kk) ∧
    hitIndex (appHeader p).data (confPieces tw yt kk) < (confPieces tw yt kk).length ∧
    hitIndex (appHeader p).data (confPieces tw yt kk) <
      hitIndex (appHeader q).data (confPieces tw yt kk) := by
  cases p <;> cases q <;> simp only [Platform.index] at hpq <;>
    first
    | exact absurd hpq (by decide)
    | (simp only at hp hq
       subst hp hq
       first
       | (cases tw <;> decide)
       | (cases yt <;> decide)
       | (cases kk <;> decide))

/-- In a marker-free configuration the directives of two enabled platforms
appear in catalog order. -/
theorem directive_order (d : Dialog) (h : d.markerFree = true) (p q : Platform)
    (hpq : p.index < q.index) (hp : d.enabled p = true) (hq : d.enabled q = true) :
    firstIndex (pushDirective p) (nginxConfigText d) <
      firstIndex (pushDirective q) (nginxConfigText d) ∧
    firstIndex (appHeader p) (nginxConfigText d) <
      firstIndex (appHeader q) (nginxConfigText d) := by
  have hwp := confPieces_wellFormed d.twitchEnabled d.youtubeEnabled d.kickEnabled p
  have hwq := confPieces_wellFormed d.twitchEnabled d.youtubeEnabled d.kickEnabled q
  have hi := confPieces_hitIndex d.twitchEnabled d.youtubeEnabled d.kickEnabled p q hpq
    (by cases p <;> exact hp) (by cases q <;> exact hq)
  constructor
  · rw [firstIndex, firstIndex, nginxConfigText_data]
    exact firstOcc_lt_of_hitIndex _ _ _ _ (fun x hx => List.all_eq_true.mp hwp.1 x hx)
      (confPieces_safe_push d h p) (fun x hx => List.all_eq_true.mp hwq.1 x hx)
      (confPieces_safe_push d h q) hi.1 hi.2.1
  · rw [firstIndex, firstIndex, nginxConfigText_data]
    exact firstOcc_lt_of_hitIndex _ _ _ _ (fun x hx => List.all_eq_true.mp hwp.2 x hx)
      (confPieces_safe_app d h p) (fun x hx => List.all_eq_true.mp hwq.2 x hx)
      (confPieces_safe_app d h q) hi.2.2.1 hi.2.2.2


/-- The body of `application live` holds no brace and one push directive per
enabled platform. -/
theorem liveBody_pushes (d : Dialog) (p : Platform) :
    '\x7b' ∉ (liveBody d).data ∧ '\x7d' ∉ (liveBody d).data ∧
    occurrences (pushDirective p) (liveBody d) = (if d.enabled p then 1 else 0) := by
  cases ht : d.twitchEnabled <;> cases hy : d.youtubeEnabled <;> cases hk : d.kickEnabled <;>
    cases p <;>
    simp only [liveBody, confPushes, Dialog.enabled, ht, hy, hk, if_true, if_false,
      Bool.false_eq_true] <;>
    decide

/-- The text is the head, the line opening `application live`, its body, the
closing brace and the rest. -/
theorem liveBody_in_text (d : Dialog) :
    nginxConfigText d =
      ("worker_processes 1;\n" ++
        "events \x7b worker_connections 1024; \x7d\n\n" ++
        "rtmp \x7b\n" ++
        "    server \x7b\n" ++
        "        listen " ++ toString d.localPort.value ++ ";\n" ++
        "        chunk_size 4096;\n" ++
        "        allow publish all;\n" ++
        "        allow play all;\n\n") ++
      "        application live \x7b\n" ++ liveBody d ++ "        \x7d\n\n" ++
      ((if d.twitchEnabled then twitchBlock d else "") ++
        (if d.youtubeEnabled then youtubeBlock d else "") ++
        (if d.kickEnabled then kickBlock d else "") ++ "    \x7d\n" ++ "\x7d\n") := by
  simp only [nginxConfigText, confHead, liveBody, String.append_assoc]

/-- A syntax-free text holds none of the characters `syntaxChars`. -/
theorem syntaxFreeText_not_mem (t : String) (h : syntaxFreeText t = true) (c : Char)
    (hc : c ∈ syntaxChars) : c ∉ t.data := by
  intro hm
  simp only [syntaxFreeText, List.all_eq_true, Bool.not_eq_true'] at h
  have := h c hm
  simp only [List.contains_eq_any_beq, List.any_eq_false, beq_iff_eq] at this
  exact this c hc rfl

/-- In a syntax-free configuration the key of an enabled platform is syntax free. -/
theorem syntaxFree_key (d : Dialog) (h : d.syntaxFree = true) (q : Platform)
    (hq : d.enabled q = true) : syntaxFreeText (d.key q) = true := by
  simp only [Dialog.syntaxFree, List.all_cons, List.all_nil, Bool.and_true, Bool.and_eq_true,
    Bool.or_eq_true, Bool.not_eq_true'] at h
  obtain ⟨-, h1, h2, h3⟩ := h
  cases q
  · rcases h1 with h | h
    · rw [hq] at h; exact absurd h (by decide)
    · exact h
  · rcases h2 with h | h
    · rw [hq] at h; exact absurd h (by decide)
    · exact h
  · rcases h3 with h | h
    · rw [hq] at h; exact absurd h (by decide)
    · exact h

/-- No occurrence of a pattern starts inside an inserted value when no inserted
value holds the first character of the pattern. -/
theorem safe_of_kindOk_head (d : Dialog) (a : Char) (pat : List Char)
    (hnum : a ∉ ['-', '0', '1', '2', '3', '4', '5', '6', '7', '8', '9'])
    (hpreset : a ∉ (presetArg d.qualityPreset).data)
    (hargs : a ∉ d.customFFmpegArgs.data)
    (htw : d.twitchEnabled = true → a ∉ d.twitchKey.data)
    (hyt : d.youtubeEnabled = true → a ∉ d.youtubeKey.data)
    (hkk : d.kickEnabled = true → a ∉ d.kickKey.data)
    (x : Piece) (hx : x.kindOk d.twitchEnabled d.youtubeEnabled d.kickEnabled = true) :
    x.Safe (a :: pat) (confValues d) := by
  cases x with
  | lit s => trivial
  | val i s =>
    simp only [Piece.kindOk] at hx
    simp only [Piece.Safe]
    by_cases h0 : i = 0 ∨ i = 2 ∨ i = 3 ∨ i = 4
    · rcases h0 with h | h | h | h <;> subst h <;>
        exact blocks_of_head a pat _ _ (fun hc => hnum (toString_int_mem _ a hc))
    · simp only [h0, if_false] at hx
      by_cases h1 : i = 1 ∨ i = 5
      · rcases h1 with h | h <;> subst h
        · exact blocks_of_head a pat _ _ hpreset
        · exact blocks_of_head a pat _ _ hargs
      · simp only [h1, if_false] at hx
        by_cases h6 : i = 6
        · simp only [h6, if_true, Bool.and_eq_true, beq_iff_eq] at hx
          subst h6
          exact blocks_of_head a pat _ _ (htw hx.1)
        · simp only [h6, if_false] at hx
          by_cases h7 : i = 7
          · simp only [h7, if_true, Bool.and_eq_true, beq_iff_eq] at hx
            subst h7
            exact blocks_of_head a pat _ _ (hyt hx.1)
          · simp only [h7, if_false] at hx
            by_cases h8 : i = 8
            · simp only [h8, if_true, Bool.and_eq_true, beq_iff_eq] at hx
              subst h8
              exact blocks_of_head a pat _ _ (hkk hx.1)
            · simp [h8] at hx

/-- The characters of `syntaxChars` are no digits and occur in no preset name. -/
theorem syntaxChars_shape (q : Preset) :
    ∀ c ∈ syntaxChars,
      c ∉ ['-', '0', '1', '2', '3', '4', '5', '6', '7', '8', '9'] ∧
      c ∉ (presetArg q).data := by
  cases q <;> decide

/-- Every piece of the text is well formed for a single character. -/
theorem confPieces_wellFormed_char (tw yt kk : Bool) :
    ∀ c ∈ syntaxChars, (confPieces tw yt kk).all (fun x => x.wellFormed [c]) = true := by
  cases tw <;> cases yt <;> cases kk <;> decide

/-- The characters of `syntaxChars` in the literal text. -/
theorem confPieces_litCount_char (tw yt kk : Bool) :
    litCount ['\x7b'] (confPieces tw yt kk) =
      4 + ([tw, yt, kk].filter id).length ∧
    litCount ['\x7d'] (confPieces tw yt kk) =
      4 + ([tw, yt, kk].filter id).length ∧
    litCount [';'] (confPieces tw yt kk) =
      8 + 6 * ([tw, yt, kk].filter id).length ∧
    ∀ c ∈ [Char.ofNat 34, Char.ofNat 39, Char.ofNat 35, Char.ofNat 92],
      litCount [c] (confPieces tw yt kk) = 0 := by
  cases tw <;> cases yt <;> cases kk <;> decide

/-- In a syntax-free configuration the characters of `syntaxChars` in the text
are those of the literal text. -/
theorem syntax_counts (d : Dialog) (h : d.syntaxFree = true) (c : Char) (hc : c ∈ syntaxChars) :
    charCount c (nginxConfigText d) =
      litCount [c] (confPieces d.twitchEnabled d.youtubeEnabled d.kickEnabled) := by
  have hargs : syntaxFreeText d.customFFmpegArgs = true := by
    simp only [Dialog.syntaxFree, Bool.and_eq_true] at h
    exact h.1
  have hw := confPieces_wellFormed_char d.twitchEnabled d.youtubeEnabled d.kickEnabled c hc
  have hsh := syntaxChars_shape d.qualityPreset c hc
  rw [charCount, nginxConfigText_data,
    countOcc_renderPieces _ _ _ (fun x hx => List.all_eq_true.mp hw x hx)]
  intro x hx
  exact safe_of_kindOk_head d c [] hsh.1 hsh.2
    (syntaxFreeText_not_mem _ hargs c hc)
    (fun e => syntaxFreeText_not_mem _ (syntaxFree_key d h .twitch e) c hc)
    (fun e => syntaxFreeText_not_mem _ (syntaxFree_key d h .youtube e) c hc)
    (fun e => syntaxFreeText_not_mem _ (syntaxFree_key d h .kick e) c hc)
    x (List.all_eq_true.mp (confPieces_kindOk _ _ _) x hx)

/-- Number of enabled platforms, from the three check boxes. -/
theorem enabledCount_eq (d : Dialog) :
    d.enabledCount = ([d.twitchEnabled, d.youtubeEnabled, d.kickEnabled].filter id).length := by
  cases ht : d.twitchEnabled <;> cases hy : d.youtubeEnabled <;> cases hk : d.kickEnabled <;>
    simp [Dialog.enabledCount, Dialog.enabled, ht, hy, hk]

/-- In a syntax-free configuration the braces and semicolons of the text are
those of the literal text, and the text holds no quote, comment sign or backslash. -/
theorem syntax_totals (d : Dialog) (h : d.syntaxFree = true) :
    charCount '\x7b' (nginxConfigText d) = 4 + d.enabledCount ∧
    charCount '\x7d' (nginxConfigText d) = 4 + d.enabledCount ∧
    charCount ';' (nginxConfigText d) = 8 + 6 * d.enabledCount ∧
    ∀ c ∈ [Char.ofNat 34, Char.ofNat 39, Char.ofNat 35, Char.ofNat 92],
      charCount c (nginxConfigText d) = 0 := by
  have hl := confPieces_litCount_char d.twitchEnabled d.youtubeEnabled d.kickEnabled
  rw [enabledCount_eq]
  refine ⟨?_, ?_, ?_, ?_⟩
  · rw [syntax_counts d h _ (by decide)]; exact hl.1
  · rw [syntax_counts d h _ (by decide)]; exact hl.2.1
  · rw [syntax_counts d h _ (by decide)]; exact hl.2.2.1
  · intro c hc
    rw [syntax_counts d h c (by revert c; decide)]
    exact hl.2.2.2 c hc

/-- C3 (as stated, refuted): the scenario configuration with custom arguments
that close the twitch block and open `application youtube` is valid (Twitch
enabled with key "abc") and YouTube is disabled, and yet the rendered text
contains an `application youtube` block opening: it has six opening braces,
where the scenario configuration itself has five. The same holds when the
arguments spell the opening with two blanks, which contains no
`application youtube` as such. -/
theorem C3_custom_arguments_add_block :
    injectedDialog.validConfig = true ∧
    injectedDialog.youtubeEnabled = false ∧
    occurrences (appHeader .youtube) (nginxConfigText injectedDialog) = 1 ∧
    occurrences "application youtube \x7b" (nginxConfigText injectedDialog) = 1 ∧
    charCount '\x7b' (nginxConfigText injectedDialog) = 6 ∧
    charCount '\x7b' (nginxConfigText scenarioDialog) = 5 ∧
    spacedInjectedDialog.validConfig = true ∧
    spacedInjectedDialog.youtubeEnabled = false ∧
    spacedInjectedDialog.markerFree = true ∧
    occurrences "application  youtube \x7b" (nginxConfigText spacedInjectedDialog) = 1 ∧
    charCount '\x7b' (nginxConfigText spacedInjectedDialog) = 6 := by
  refine ⟨by decide, by decide, by decide, by decide, by decide, by decide, by decide,
    by decide, by decide, by decide, by decide⟩

/-- C3 (amended): let neither the custom arguments nor the key of an enabled
platform contain `push rtmp://localhost/<id>` or `application <id>` for one of
the three ids, or one of the characters `;`, the two braces, the two quotes,
the comment sign and the backslash. Then the text of `createNginxConfig`
contains exactly one `push rtmp://localhost/<id>;` and exactly one
`application <id>` for each enabled platform and none for a disabled one; the
push directives all lie in the body of `application live`, between its opening
line and its closing brace; for two enabled platforms both the push directives
and the application blocks appear in the catalog order twitch, youtube, kick;
and nothing else opens a block or ends a directive, however it is spelled: with
`n` platforms enabled the text has `4 + n` opening braces (`events`, `rtmp`,
`server`, `application live` and the `n` platform blocks), `4 + n` closing
braces and `8 + 6 * n` semicolons, and no quote, comment sign or backslash. -/
theorem C3_one_directive_per_enabled_platform (d : Dialog) (h : d.markerFree = true)
    (hs : d.syntaxFree = true) :
    (∀ p : Platform,
      occurrences (pushDirective p) (nginxConfigText d) = (if d.enabled p then 1 else 0) ∧
      occurrences (appHeader p) (nginxConfigText d) = (if d.enabled p then 1 else 0)) ∧
    (∃ pre body post : String,
      nginxConfigText d =
        pre ++ "        application live \x7b\n" ++ body ++ "        \x7d\n\n" ++ post ∧
      '\x7b' ∉ body.data ∧ '\x7d' ∉ body.data ∧
      ∀ p : Platform,
        occurrences (pushDirective p) body = occurrences (pushDirective p) (nginxConfigText d)) ∧
    (∀ p q : Platform, p.index < q.index → d.enabled p = true → d.enabled q = true →
      firstIndex (pushDirective p) (nginxConfigText d) <
        firstIndex (pushDirective q) (nginxConfigText d) ∧
      firstIndex (appHeader p) (nginxConfigText d) <
        firstIndex (appHeader q) (nginxConfigText d)) ∧
    charCount '\x7b' (nginxConfigText d) = 4 + d.enabledCount ∧
    charCount '\x7d' (nginxConfigText d) = 4 + d.enabledCount ∧
    charCount ';' (nginxConfigText d) = 8 + 6 * d.enabledCount ∧
    (∀ c ∈ [Char.ofNat 34, Char.ofNat 39, Char.ofNat 35, Char.ofNat 92],
      charCount c (nginxConfigText d) = 0) := by
  refine ⟨fun p => directive_counts d h p, ⟨_, liveBody d, _, liveBody_in_text d, ?_, ?_, ?_⟩,
    fun p q hpq hp hq => directive_order d h p q hpq hp hq, syntax_totals d hs⟩
  · exact (liveBody_pushes d .twitch).1
  · exact (liveBody_pushes d .twitch).2.1
  · intro p
    rw [(liveBody_pushes d p).2.2, (directive_counts d h p).1]

/-- Witness for C3 (amended): all three platforms enabled with plain keys. -/
theorem C3_one_directive_per_enabled_platform_witness :
    allEnabledDialog.markerFree = true ∧
    allEnabledDialog.syntaxFree = true ∧
    allEnabledDialog.validConfig = true ∧
    (∀ p : Platform,
      occurrences (pushDirective p) (nginxConfigText allEnabledDialog) =
        (if allEnabledDialog.enabled p then 1 else 0) ∧
      occurrences (appHeader p) (nginxConfigText allEnabledDialog) =
        (if allEnabledDialog.enabled p then 1 else 0)) ∧
    charCount '\x7b' (nginxConfigText allEnabledDialog) = 4 + allEnabledDialog.enabledCount :=
  ⟨by decide, by decide, by decide,
   (C3_one_directive_per_enabled_platform allEnabledDialog (by decide) (by decide)).1,
   (C3_one_directive_per_enabled_platform allEnabledDialog (by decide) (by decide)).2.2.2.1⟩

/-! ## Reachable states and what holds in them -/

/-- What `startRTMPServer` does to the members the invariants read: the pointer
is the new process object, one process object is added, and the flags and the
spin boxes are as they were. -/
theorem startRTMPServer_facts (e : Env) (d : Dialog) :
    (startRTMPServer e d).dialog.nginxProcess = some d.processes.length ∧
    (startRTMPServer e d).dialog.processes.length = d.processes.length + 1 ∧
    (startRTMPServer e d).dialog.isRelaying = d.isRelaying ∧
    (startRTMPServer e d).dialog.startBtnEnabled = d.startBtnEnabled ∧
    (startRTMPServer e d).dialog.statusTimerActive = d.statusTimerActive ∧
    (startRTMPServer e d).dialog.localPort = d.localPort ∧
    (startRTMPServer e d).dialog.maxBitrate = d.maxBitrate := by
  cases hs : e.started <;> cases ho : e.fileOpens <;>
    simp [startRTMPServer, createNginxConfig, hs, ho, Result.dialog]

/-- How `startRTMPServer` ends: it throws exactly when the wait fails. -/
theorem startRTMPServer_result (e : Env) (d : Dialog) :
    startRTMPServer e d =
      if e.started then .returned (startRTMPServer e d).dialog
      else .threw (startRTMPServer e d).dialog "Failed to start nginx process" := by
  cases hs : e.started <;> simp [startRTMPServer, hs, Result.dialog]

/-- The state `onStartRelay` reaches once both checks have passed. -/
theorem onStartRelay_started (e : Env) (d : Dialog) (h : d.validConfig = true) :
    onStartRelay e d =
      if e.started then
        { (startRTMPServer e d).dialog with
          isRelaying := true
          startBtnEnabled := false
          stopBtnEnabled := true
          statusLabel := "Status: Multi-Stream Relay Active"
          statusTimerActive := true
          updateTimerActive := true
          logOutput := (startRTMPServer e d).dialog.logOutput ++
            ["[" ++ e.now ++ "] Multi-stream relay started successfully"]
          messages := (startRTMPServer e d).dialog.messages ++ [.information "Relay Started"
            "Multi-stream relay is now active! Configure OBS with the RTMP URL shown above and start streaming."] }
      else
        { (startRTMPServer e d).dialog with
          messages := (startRTMPServer e d).dialog.messages ++
            [.critical "Error" ("Failed to start relay: " ++ "Failed to start nginx process")] } := by
  rw [onStartRelay_of_valid e d h]
  cases hs : e.started
  · have : startRTMPServer e d =
        .threw (startRTMPServer e d).dialog "Failed to start nginx process" := by
      rw [startRTMPServer_result, hs]; rfl
    rw [this]
    rfl
  · have : startRTMPServer e d = .returned (startRTMPServer e d).dialog := by
      rw [startRTMPServer_result, hs]; rfl
    rw [this]
    rfl

/-- The state `onStartRelay` reaches when a check fails: only a warning is added. -/
theorem onStartRelay_refused (e : Env) (d : Dialog) (h : d.validConfig = false) :
    ∃ m, onStartRelay e d = { d with messages := d.messages ++ [m] } := by
  by_cases hc1 : (!d.twitchEnabled && !d.youtubeEnabled && !d.kickEnabled) = true
  · exact ⟨.warning "Configuration Required"
      "Please enable and configure at least one streaming platform before starting.",
      by simp only [onStartRelay, hc1, if_true]⟩
  · have hc1 := Bool.eq_false_iff.mpr hc1
    have hc2 : ((d.twitchEnabled && d.twitchKey.isEmpty) ||
        (d.youtubeEnabled && d.youtubeKey.isEmpty) ||
        (d.kickEnabled && d.kickKey.isEmpty)) = true := by
      simp only [Dialog.validConfig, Dialog.missingKey, Dialog.enabled, Dialog.key] at h
      revert h hc1
      cases d.twitchEnabled <;> cases d.youtubeEnabled <;> cases d.kickEnabled <;>
        cases d.twitchKey.isEmpty <;> cases d.youtubeKey.isEmpty <;>
        cases d.kickKey.isEmpty <;> decide
    exact ⟨.warning "Stream Keys Required" "Please enter stream keys for all enabled platforms.",
      by simp only [onStartRelay, hc1, hc2, if_true, if_false, Bool.false_eq_true]⟩

/-- The invariant reads only these members of the dialog. -/
theorem inv_of_eq (d d' : Dialog) (e1 : d'.isRelaying = d.isRelaying)
    (e2 : d'.startBtnEnabled = d.startBtnEnabled) (e3 : d'.nginxProcess = d.nginxProcess)
    (e4 : d'.processes.length = d.processes.length)
    (e5 : d'.statusTimerActive = d.statusTimerActive)
    (hinv : d.Inv) : d'.Inv := by
  obtain ⟨h1, h2, h3⟩ := hinv
  refine ⟨?_, ?_, ?_⟩
  · rw [e1, e2]; exact h1
  · rw [e3, e4]; exact h2
  · rw [e1, e5]; exact h3

/-- The invariant holds after `onStopRelay`. -/
theorem inv_onStopRelay (e : Env) (d : Dialog) : (onStopRelay e d).Inv := by
  refine ⟨?_, ?_, ?_⟩
  · intro h; simp [onStopRelay] at h
  · intro h hh
    cases hp : d.nginxProcess <;> simp [onStopRelay, stopRTMPServer, hp] at hh
  · intro h; simp [onStopRelay] at h

/-- The invariant holds after `startRTMPServer`. -/
theorem inv_startRTMPServer (e : Env) (d : Dialog) (hinv : d.Inv) :
    (startRTMPServer e d).dialog.Inv := by
  obtain ⟨h1, -, h3⟩ := hinv
  obtain ⟨f1, f2, f3, f4, f5, -, -⟩ := startRTMPServer_facts e d
  refine ⟨?_, ?_, ?_⟩
  · rw [f3, f4]; exact h1
  · intro h hh
    rw [f1] at hh
    have : h = d.processes.length := by simpa using hh.symm
    rw [f2, this]
    omega
  · rw [f3, f5]; exact h3

/-- The invariant holds after `onStartRelay`. -/
theorem inv_onStartRelay (e : Env) (d : Dialog) (hinv : d.Inv) : (onStartRelay e d).Inv := by
  cases hv : d.validConfig
  · obtain ⟨m, hm⟩ := onStartRelay_refused e d hv
    rw [hm]
    exact inv_of_eq d _ rfl rfl rfl rfl rfl hinv
  · rw [onStartRelay_started e d hv]
    obtain ⟨-, h2, -⟩ := inv_startRTMPServer e d hinv
    cases hs : e.started
    · exact inv_of_eq (startRTMPServer e d).dialog _ rfl rfl rfl rfl rfl
        (inv_startRTMPServer e d hinv)
    · exact ⟨fun _ => rfl, h2, fun _ => rfl⟩

/-- The invariant holds after a health check. -/
theorem inv_statusTimerTick (e : Env) (d : Dialog) (hinv : d.Inv) :
    (statusTimerTick e d).dialog.Inv := by
  cases ht : d.statusTimerActive
  · simp only [statusTimerTick, ht, Bool.false_eq_true, if_false, Result.dialog]
    exact hinv
  · simp only [statusTimerTick, ht, if_true]
    cases hp : d.nginxProcess with
    | none =>
      simp only [updateRelayStatus, hp, Result.dialog]
      exact hinv
    | some h =>
      by_cases hrun : processState d h = .Running
      · simp only [updateRelayStatus, hp, hrun, bne_self_eq_false, Bool.false_eq_true, if_false,
          Result.dialog]
        exact hinv
      · have hb : (processState d h != .Running) = true := by
          simpa [bne_iff_ne] using hrun
        cases ha : d.autoReconnect
        · simp only [updateRelayStatus, hp, hb, ha, if_true, Bool.false_eq_true, if_false,
            Result.dialog]
          exact inv_of_eq (onStopRelay e d) _ rfl rfl rfl rfl rfl (inv_onStopRelay e d)
        · have hupd : updateRelayStatus e d = startRTMPServer e { d with logOutput :=
              d.logOutput ++ ["[" ++ e.now ++ "] Relay process died, attempting restart..."] } := by
            simp only [updateRelayStatus, hp, hb, ha, if_true]
          rw [hupd]
          exact inv_startRTMPServer e _ (inv_of_eq d _ rfl rfl rfl rfl rfl hinv)

/-- The invariant holds after every event. -/
theorem inv_step (d : Dialog) (ev : Event) (hinv : d.Inv) : (d.step ev).Inv := by
  cases ev with
  | setEnabled p b =>
    simp only [Dialog.step]
    split
    · exact hinv
    · obtain ⟨h1, h2, h3⟩ := hinv
      refine ⟨?_, ?_, ?_⟩
      · intro hr
        have hr' : d.isRelaying = true := by cases p <;> exact hr
        cases p <;> simp [onPlatformToggled, Dialog.setEnabled, hr']
      · intro h hh
        have hh' : d.nginxProcess = some h := by cases p <;> exact hh
        have := h2 h hh'
        cases p <;> exact this
      · intro ht
        have ht' : d.statusTimerActive = true := by cases p <;> exact ht
        have := h3 ht'
        cases p <;> exact this
  | setKey p k =>
    exact inv_of_eq d _ (by cases p <;> rfl) (by cases p <;> rfl) (by cases p <;> rfl)
      (by cases p <;> rfl) (by cases p <;> rfl) hinv
  | setPort v => exact inv_of_eq d _ rfl rfl rfl rfl rfl hinv
  | setBitrate v => exact inv_of_eq d _ rfl rfl rfl rfl rfl hinv
  | setPreset q => exact inv_of_eq d _ rfl rfl rfl rfl rfl hinv
  | setAutoReconnect b => exact inv_of_eq d _ rfl rfl rfl rfl rfl hinv
  | setLogging b => exact inv_of_eq d _ rfl rfl rfl rfl rfl hinv
  | setCustomArgs s => exact inv_of_eq d _ rfl rfl rfl rfl rfl hinv
  | clickStart e =>
    simp only [Dialog.step]
    split
    · exact inv_onStartRelay e d hinv
    · exact hinv
  | clickStop e =>
    simp only [Dialog.step]
    split
    · exact inv_onStopRelay e d
    · exact hinv
  | clickTest => exact inv_of_eq d _ rfl rfl rfl rfl rfl hinv
  | testTimeout e => exact inv_of_eq d _ rfl rfl rfl rfl rfl hinv
  | timerTick e => exact inv_statusTimerTick e d hinv
  | processExit h =>
    exact inv_of_eq d _ rfl rfl rfl (List.length_modify _ _ _) rfl hinv
  | processUp h =>
    exact inv_of_eq d _ rfl rfl rfl (List.length_modify _ _ _) rfl hinv

/-- The fresh dialog satisfies the invariant. -/
theorem inv_initial (configPath : String) : (Dialog.initial configPath).Inv := by
  refine ⟨?_, ?_, ?_⟩
  · intro h; exact absurd h (by simp [Dialog.initial])
  · intro h hh; exact absurd hh (by simp [Dialog.initial])
  · intro h; exact absurd h (by simp [Dialog.initial])

/-- Every reachable state satisfies the invariant. -/
theorem reachable_inv (d : Dialog) (h : Reachable d) : d.Inv := by
  induction h with
  | initial configPath => exact inv_initial configPath
  | step d ev _ ih => exact inv_step d ev ih

/-- Events keep the dialog among the reachable states. -/
theorem reachable_run (evs : List Event) (d : Dialog) (h : Reachable d) :
    Reachable (Dialog.run evs d) := by
  induction evs generalizing d with
  | nil => exact h
  | cons ev evs ih => exact ih _ (Reachable.step d ev h)

/-- The scenario configuration is what the constructor builds from stored
settings that enable Twitch with the key "abc" and leave the rest at its default. -/
theorem scenarioDialog_loaded :
    loadSettings { twitchEnabled := true, twitchKey := "abc" } (Dialog.initial "/cfg/") =
      scenarioDialog ∧
    Reachable scenarioDialog := by
  have h : loadSettings { twitchEnabled := true, twitchKey := "abc" } (Dialog.initial "/cfg/") =
      scenarioDialog := by decide
  refine ⟨h, ?_⟩
  rw [← h]
  exact reachable_run _ _ (Reachable.initial "/cfg/")

/-- C11 (the code at the failing input): the scenario configuration is started
while nginx takes longer than the five seconds `waitForStarted(5000)` waits.
The start is reported as failed, `isRelaying` stays false, and the process
object, still starting, stays in `nginxProcess`; the stop button is disabled, so
no stop can be asked for, while the start button is enabled. The process then
comes up, a second click on Start creates a second process and moves the
pointer to it, and the click on Stop kills that second process only: the relay
is marked stopped with a null pointer while the first process, spawned in the
session, is running and was never sent a kill. -/
theorem C11_stop_leaves_late_process_running :
    Reachable (Dialog.run lateProcessEvents slowStartDialog) ∧
    slowStartDialog.isRelaying = false ∧
    slowStartDialog.nginxProcess = some 0 ∧
    slowStartDialog.processes.map (fun p => (p.state, p.killed)) = [(.Starting, false)] ∧
    slowStartDialog.messages =
      [.critical "Error" "Failed to start relay: Failed to start nginx process"] ∧
    slowStartDialog.startBtnEnabled = true ∧
    slowStartDialog.stopBtnEnabled = false ∧
    slowStartDialog.step (.clickStop envOk) = slowStartDialog ∧
    (Dialog.run lateProcessEvents slowStartDialog).isRelaying = false ∧
    (Dialog.run lateProcessEvents slowStartDialog).nginxProcess = none ∧
    (Dialog.run lateProcessEvents slowStartDialog).statusLabel = "Status: Stopped" ∧
    (Dialog.run lateProcessEvents slowStartDialog).processes.map
      (fun p => (p.state, p.killed)) = [(.Running, false), (.NotRunning, true)] := by
  refine ⟨reachable_run _ _ (reachable_run _ _ (Reachable.initial "/cfg/")), by decide,
    by decide, by decide, by decide, by decide, by decide, by decide, by decide, by decide,
    by decide, by decide⟩

/-- C12: `stopRTMPServer` with a null process pointer changes nothing at all (no
process object is touched, and the function has no way to fail); a second
`stopRTMPServer` after a first changes nothing; and a second `onStopRelay` after
a first leaves the relay as it was, adding only its log line and message box. -/
theorem C12_stop_idempotent (e1 e2 : Env) (d : Dialog) :
    (d.nginxProcess = none → stopRTMPServer d = d) ∧
    stopRTMPServer (stopRTMPServer d) = stopRTMPServer d ∧
    onStopRelay e2 (onStopRelay e1 d) =
      { onStopRelay e1 d with
        logOutput := (onStopRelay e1 d).logOutput ++
          ["[" ++ e2.now ++ "] Multi-stream relay stopped"]
        messages := (onStopRelay e1 d).messages ++
          [.information "Relay Stopped" "Multi-stream relay has been stopped."] } := by
  refine ⟨?_, ?_, ?_⟩
  · intro h
    simp only [stopRTMPServer, h]
  · cases h : d.nginxProcess <;> simp [stopRTMPServer, h]
  · cases h : d.nginxProcess <;> simp [onStopRelay, stopRTMPServer, h]

/-- Witness for C12: the fresh dialog holds no process. -/
theorem C12_stop_idempotent_witness :
    (Dialog.initial "/cfg/").nginxProcess = none ∧
    stopRTMPServer (Dialog.initial "/cfg/") = Dialog.initial "/cfg/" :=
  ⟨rfl, (C12_stop_idempotent envOk envOk (Dialog.initial "/cfg/")).1 rfl⟩


/-! ## Starting while running, config write failure, connection test -/

/-- C13 (as stated, refuted): the scenario relay is running and its
configuration is valid. The start button is disabled, and a click on it is not
answered with an already-running error or any other message: nothing happens. -/
theorem C13_start_while_running_reports_nothing :
    Reachable (Dialog.run scenarioEvents (Dialog.initial "/cfg/")) ∧
    (Dialog.run scenarioEvents (Dialog.initial "/cfg/")).isRelaying = true ∧
    (Dialog.run scenarioEvents (Dialog.initial "/cfg/")).validConfig = true ∧
    (Dialog.run scenarioEvents (Dialog.initial "/cfg/")).startBtnEnabled = false ∧
    (Dialog.run scenarioEvents (Dialog.initial "/cfg/")).messages = [.information "Relay Started"
      "Multi-stream relay is now active! Configure OBS with the RTMP URL shown above and start streaming."] ∧
    ((Dialog.run scenarioEvents (Dialog.initial "/cfg/")).step (.clickStart envOk)).messages =
      (Dialog.run scenarioEvents (Dialog.initial "/cfg/")).messages ∧
    (Dialog.run scenarioEvents (Dialog.initial "/cfg/")).step (.clickStart envOk) =
      Dialog.run scenarioEvents (Dialog.initial "/cfg/") := by
  refine ⟨reachable_run _ _ (Reachable.initial "/cfg/"), by decide, by decide, by decide,
    by decide, by decide, by decide⟩

/-- C13 (amended): a start while the relay is running is not refused with an
error, it cannot be asked for. In every reachable state with `isRelaying` true
the start button is disabled and a platform toggle does not enable it; a click
on it changes nothing: no message is shown, no second process is spawned, the
config is not rewritten and the process pointer is unchanged. -/
theorem C13_start_button_disabled_while_relaying (e : Env) (d : Dialog) (p : Platform)
    (b : Bool) (hr : Reachable d) (hrel : d.isRelaying = true) :
    d.startBtnEnabled = false ∧
    (d.step (.setEnabled p b)).startBtnEnabled = false ∧
    d.step (.clickStart e) = d ∧
    (d.step (.clickStart e)).messages = d.messages ∧
    (d.step (.clickStart e)).processes = d.processes ∧
    (d.step (.clickStart e)).nginxConf = d.nginxConf ∧
    (d.step (.clickStart e)).nginxProcess = d.nginxProcess := by
  have hbtn : d.startBtnEnabled = false := (reachable_inv d hr).1 hrel
  have hstep : d.step (.clickStart e) = d := by
    simp only [Dialog.step, hbtn, Bool.false_eq_true, if_false]
  refine ⟨hbtn, ?_, hstep, by rw [hstep], by rw [hstep], by rw [hstep], by rw [hstep]⟩
  simp only [Dialog.step]
  split
  · exact hbtn
  · cases p <;> simp [onPlatformToggled, Dialog.setEnabled, hrel]

/-- Witness for C13 (amended): the running scenario relay. -/
theorem C13_start_button_disabled_while_relaying_witness :
    Reachable (Dialog.run scenarioEvents (Dialog.initial "/cfg/")) ∧
    (Dialog.run scenarioEvents (Dialog.initial "/cfg/")).isRelaying = true ∧
    (Dialog.run scenarioEvents (Dialog.initial "/cfg/")).startBtnEnabled = false :=
  ⟨reachable_run _ _ (Reachable.initial "/cfg/"), by decide,
   (C13_start_button_disabled_while_relaying envOk _ .twitch false
     (reachable_run _ _ (Reachable.initial "/cfg/")) (by decide)).1⟩

/-- C14 (the code at the failing input): the scenario configuration is started
while `nginx.conf` cannot be opened. `createNginxConfig` writes nothing and
reports nothing, `startRTMPServer` creates and starts the nginx process all the
same, and `onStartRelay` marks the relay as relaying and announces the start. -/
theorem C14_unwritten_config_still_starts :
    envNoFile.fileOpens = false ∧
    createNginxConfig envNoFile scenarioDialog = scenarioDialog ∧
    (onStartRelay envNoFile scenarioDialog).nginxConf = none ∧
    (onStartRelay envNoFile scenarioDialog).processes =
      [{ program := "nginx", arguments := ["-c", "/cfg/nginx.conf"],
         state := .Running, killed := false }] ∧
    (onStartRelay envNoFile scenarioDialog).isRelaying = true ∧
    (onStartRelay envNoFile scenarioDialog).messages = [.information "Relay Started"
      "Multi-stream relay is now active! Configure OBS with the RTMP URL shown above and start streaming."] := by
  refine ⟨by decide, by decide, by decide, by decide, by decide, by decide⟩

/-- C15 (as stated, refuted): on the fresh dialog, where no platform is enabled,
a start is refused with the "Configuration Required" warning, yet the connection
test ends with its usual "Connection test completed" box and no warning. -/
theorem C15_test_passes_invalid_config :
    (Dialog.initial "/cfg/").validConfig = false ∧
    (onStartRelay envOk (Dialog.initial "/cfg/")).messages =
      [.warning "Configuration Required"
        "Please enable and configure at least one streaming platform before starting."] ∧
    (onTestConnectionTimeout envOk (onTestConnection (Dialog.initial "/cfg/"))).messages =
      [.information "Connection Test"
        "Connection test completed. Check the monitor tab for details."] := by
  refine ⟨by decide, by decide, by decide⟩

/-- C15 (amended): the connection test validates nothing and spawns nothing.
Whatever the configuration is, `onTestConnection` shows the progress bar, and
its single-shot timer hides it again, shows the "Connection test completed" box
and logs one line; every other member (config file, process objects, pointer,
`isRelaying`) is left as it was. -/
theorem C15_test_connection_checks_nothing (e : Env) (d : Dialog) :
    (onTestConnection d) = { d with statusProgressVisible := true } ∧
    onTestConnectionTimeout e (onTestConnection d) =
      { d with
        statusProgressVisible := false
        messages := d.messages ++ [.information "Connection Test"
          "Connection test completed. Check the monitor tab for details."]
        logOutput := d.logOutput ++ ["[" ++ e.now ++ "] Connection test completed"] } ∧
    (onTestConnectionTimeout e (onTestConnection d)).processes = d.processes ∧
    (onTestConnectionTimeout e (onTestConnection d)).nginxConf = d.nginxConf ∧
    (onTestConnectionTimeout e (onTestConnection d)).nginxProcess = d.nginxProcess ∧
    (onTestConnectionTimeout e (onTestConnection d)).isRelaying = d.isRelaying :=
  ⟨rfl, rfl, rfl, rfl, rfl, rfl⟩

/-! ## Health check without auto-reconnect, teardown -/

/-- C16: when the health check finds the process not running and auto-reconnect
is off, it returns without creating a process object, and the relay is stopped:
`isRelaying` false, pointer null, health check no longer armed, so that later
timer ticks do nothing; when the process is running the health check returns
the state unchanged. -/
theorem C16_health_check_without_reconnect (e e' : Env) (d : Dialog) (h : Nat)
    (hp : d.nginxProcess = some h) :
    (processState d h ≠ .Running → d.autoReconnect = false →
      updateRelayStatus e d = .returned { onStopRelay e d with
        messages := (onStopRelay e d).messages ++
          [.warning "Relay Error" "The relay process has stopped unexpectedly."] } ∧
      (updateRelayStatus e d).dialog.processes.length = d.processes.length ∧
      (updateRelayStatus e d).dialog.isRelaying = false ∧
      (updateRelayStatus e d).dialog.nginxProcess = none ∧
      (updateRelayStatus e d).dialog.statusTimerActive = false ∧
      statusTimerTick e' (updateRelayStatus e d).dialog =
        .returned (updateRelayStatus e d).dialog) ∧
    (processState d h = .Running → updateRelayStatus e d = .returned d) := by
  constructor
  · intro hrun ha
    have hb : (processState d h != .Running) = true := by
      simpa [bne_iff_ne] using hrun
    have key : updateRelayStatus e d = .returned { onStopRelay e d with
        messages := (onStopRelay e d).messages ++
          [.warning "Relay Error" "The relay process has stopped unexpectedly."] } := by
      simp only [updateRelayStatus, hp, hb, ha, if_true, Bool.false_eq_true, if_false]
    rw [key]
    refine ⟨rfl, ?_, rfl, ?_, rfl, ?_⟩
    · simp [Result.dialog, onStopRelay, stopRTMPServer, hp, killProcess, List.length_modify]
    · simp [Result.dialog, onStopRelay, stopRTMPServer, hp]
    · simp [statusTimerTick, Result.dialog, onStopRelay]
  · intro hrun
    simp only [updateRelayStatus, hp, hrun, bne_self_eq_false, Bool.false_eq_true, if_false]

/-- Witness for C16: the running scenario relay with auto-reconnect switched off,
after nginx has exited. -/
theorem C16_health_check_without_reconnect_witness :
    (crashCurrent { runningDialog with autoReconnect := false }).nginxProcess = some 0 ∧
    processState (crashCurrent { runningDialog with autoReconnect := false }) 0 ≠ .Running ∧
    (updateRelayStatus envOk
      (crashCurrent { runningDialog with autoReconnect := false })).dialog.isRelaying = false :=
  ⟨by decide, by decide,
   ((C16_health_check_without_reconnect envOk envOk
      (crashCurrent { runningDialog with autoReconnect := false }) 0 (by decide)).1
      (by decide) (by decide)).2.2.1⟩

/-- C17 (the code at the failing input): the scenario configuration is started
and nginx does not start. The state reached is reachable, `isRelaying` is false
and yet the process pointer holds the new process object; the destructor, which
stops the process only when `isRelaying` is true, leaves that process object as
it is, not killed. -/
theorem C17_failed_start_keeps_handle :
    Reachable (Dialog.run [.setEnabled .twitch true, .setKey .twitch "abc",
      .setCustomArgs "-tune zerolatency", .clickStart envNoStart] (Dialog.initial "/cfg/")) ∧
    Dialog.run [.setEnabled .twitch true, .setKey .twitch "abc",
      .setCustomArgs "-tune zerolatency", .clickStart envNoStart] (Dialog.initial "/cfg/") =
      onStartRelay envNoStart scenarioDialog ∧
    (onStartRelay envNoStart scenarioDialog).isRelaying = false ∧
    (onStartRelay envNoStart scenarioDialog).nginxProcess = some 0 ∧
    destroy (onStartRelay envNoStart scenarioDialog) = onStartRelay envNoStart scenarioDialog ∧
    (destroy (onStartRelay envNoStart scenarioDialog)).processes.map (fun p => p.killed) =
      [false] := by
  refine ⟨reachable_run _ _ (Reachable.initial "/cfg/"), by decide, by decide, by decide,
    by decide, by decide⟩


/-! ## Rendering: disabled keys, preset -/

/-- C18: the rendered text does not depend on the key of a disabled platform:
replacing that key by any other text leaves the text of `createNginxConfig`,
and so the file content it writes, unchanged. -/
theorem C18_disabled_key_not_rendered (e : Env) (d : Dialog) (p : Platform) (k : String)
    (h : d.enabled p = false) :
    nginxConfigText (d.setKey p k) = nginxConfigText d ∧
    (createNginxConfig e (d.setKey p k)).nginxConf = (createNginxConfig e d).nginxConf := by
  have ht : nginxConfigText (d.setKey p k) = nginxConfigText d := by
    cases p <;> simp only [Dialog.enabled] at h <;>
      simp [nginxConfigText, confHead, confPushes, twitchBlock, youtubeBlock, kickBlock,
        Dialog.setKey, h]
  refine ⟨ht, ?_⟩
  cases ho : e.fileOpens
  · cases p <;> simp [createNginxConfig, ho, Dialog.setKey]
  · have hc : ∀ x : Dialog, (createNginxConfig e x).nginxConf = some (nginxConfigText x) := by
      intro x; simp [createNginxConfig, ho]
    rw [hc, hc, ht]

/-- Witness for C18: YouTube is disabled in the scenario configuration. -/
theorem C18_disabled_key_not_rendered_witness :
    scenarioDialog.enabled .youtube = false ∧
    nginxConfigText (scenarioDialog.setKey .youtube "secret") = nginxConfigText scenarioDialog :=
  ⟨by decide, (C18_disabled_key_not_rendered envOk scenarioDialog .youtube "secret"
    (by decide)).1⟩

end StreamRelay
